import Mathlib

/-!
# om_gemoy.cpp: rotating textured polygon demo

A shallow embedding of `src/om_gemoy.cpp`.

* Floating-point values are elements of a type `α` carrying the arithmetic the
  program uses; the functions of `<cmath>` / GLM and the constant `M_PI` are the
  fields of `CMath α`.  The theorems about numbers take `α = ℝ`, with the real cosine,
  sine, inverse square root and `π`.
* GLM is not part of the repository: `glm::mat4`, `glm::normalize` and `glm::rotate`
  are modelled after §4.2 of the specification.
* Calls into GLFW, SDL, SDL_mixer, glad/OpenGL and stb_image are recorded, in
  program order, in `World.trace`; what they return is read from `Env`.  The state
  these libraries keep and the program reads back (the close flag of the window, what
  `SDL_WasInit` reports, whether the audio device is open) is part of `World`.
* The render loop runs on the frames listed in `Env.frames`; `main` returns the final
  `World` together with the way the run ended: an exit status, or `Status.running`
  when the frames end before the window is closed.
* The definitions of the program come first, then the definitions used to state the
  properties, then lemmas, then the claims `C1` .. `C10`.
-/

set_option autoImplicit false

namespace OmGemoy

/-! ## Numbers, vectors, matrices -/

/-- The functions of `<cmath>` and GLM that the program calls, and `M_PI` (lines 18-20). -/
structure CMath (α : Type) where
  cos : α → α
  sin : α → α
  inversesqrt : α → α
  M_PI : α

/-- The type `glm::vec3`. -/
structure Vec3 (α : Type) where
  x : α
  y : α
  z : α

/-- The type `glm::vec4`. -/
structure Vec4 (α : Type) where
  x : α
  y : α
  z : α
  w : α

/-- The type `glm::mat4`: four columns, `m[0]` .. `m[3]`. -/
structure Mat4 (α : Type) where
  c0 : Vec4 α
  c1 : Vec4 α
  c2 : Vec4 α
  c3 : Vec4 α

section Numeric

variable {α : Type} [Add α] [Sub α] [Mul α] [Div α] [IntCast α] [OfScientific α]

/-- Product `v * s` of a `glm::vec4` with a scalar. -/
def Vec4.scale (v : Vec4 α) (s : α) : Vec4 α :=
  ⟨v.x * s, v.y * s, v.z * s, v.w * s⟩

/-- Sum of two `glm::vec4`. -/
def Vec4.add (a b : Vec4 α) : Vec4 α :=
  ⟨a.x + b.x, a.y + b.y, a.z + b.z, a.w + b.w⟩

/-- Modelled from the spec: `glm::mat4(s)` of the GLM library (not under src/), the
matrix with `s` on the diagonal; `glm::mat4(1.0f)` is the identity matrix of §4.2. -/
def mat4 (s : α) : Mat4 α :=
  ⟨⟨s, 0.0, 0.0, 0.0⟩, ⟨0.0, s, 0.0, 0.0⟩, ⟨0.0, 0.0, s, 0.0⟩, ⟨0.0, 0.0, 0.0, s⟩⟩

/-- Modelled from the spec: `glm::normalize` of the GLM library (not under src/):
`v * inversesqrt(dot(v, v))`. -/
def normalize (m : CMath α) (v : Vec3 α) : Vec3 α :=
  let d := m.inversesqrt (v.x * v.x + v.y * v.y + v.z * v.z)
  ⟨v.x * d, v.y * d, v.z * d⟩

/-- Modelled from the spec: `glm::rotate(m, angle, v)` of the GLM library (not under
src/), the 4×4 homogeneous rotation of `mat` by `angle` radians about the axis `v`
(§4.2: "a 4×4 homogeneous rotation matrix about the Z axis by angle"). -/
def rotate (m : CMath α) (mat : Mat4 α) (angle : α) (v : Vec3 α) : Mat4 α :=
  let c := m.cos angle
  let s := m.sin angle
  let axis := normalize m v
  let temp : Vec3 α := ⟨((1.0 : α) - c) * axis.x, ((1.0 : α) - c) * axis.y, ((1.0 : α) - c) * axis.z⟩
  let r00 := c + temp.x * axis.x
  let r01 := temp.x * axis.y + s * axis.z
  let r02 := temp.x * axis.z - s * axis.y
  let r10 := temp.y * axis.x - s * axis.z
  let r11 := c + temp.y * axis.y
  let r12 := temp.y * axis.z + s * axis.x
  let r20 := temp.z * axis.x + s * axis.y
  let r21 := temp.z * axis.y - s * axis.x
  let r22 := c + temp.z * axis.z
  ⟨((mat.c0.scale r00).add (mat.c1.scale r01)).add (mat.c2.scale r02),
   ((mat.c0.scale r10).add (mat.c1.scale r11)).add (mat.c2.scale r12),
   ((mat.c0.scale r20).add (mat.c1.scale r21)).add (mat.c2.scale r22),
   mat.c3⟩

/-- The per-frame transform of the render loop (lines 230-231):
`glm::rotate(glm::mat4(1.0f), (float)glfwGetTime(), glm::vec3(0.0f, 0.0f, 1.0f))`. -/
def transform (m : CMath α) (time : α) : Mat4 α :=
  let transform : Mat4 α := mat4 1.0
  rotate m transform time ⟨0.0, 0.0, 1.0⟩

/-! ## Mesh generation (lines 174-195) -/

/-- The call `std::vector<float>::push_back`. -/
def push_back (vertices : List α) (x : α) : List α :=
  vertices ++ [x]

/-- Body of the loop of lines 183-190 for the index `i`. -/
def boundaryVertex (m : CMath α) (radius : α) (numSides : Int) (vertices : List α) (i : Int) :
    List α :=
  let angle : α := (i : α) * ((2.0 : α) * m.M_PI / (numSides : α))
  let vertices := push_back vertices (radius * m.cos angle)
  let vertices := push_back vertices (radius * m.sin angle)
  let vertices := push_back vertices ((0.5 : α) + (0.5 : α) * m.cos angle)
  let vertices := push_back vertices ((0.5 : α) + (0.5 : α) * m.sin angle)
  vertices

/-- The loop `for (int i = 0; i < numSides; ++i)` of lines 183-190. -/
def boundaryLoop (m : CMath α) (radius : α) (numSides : Int) (vertices : List α) : List α :=
  (List.range numSides.toNat).foldl
    (fun vertices (i : Nat) => boundaryVertex m radius numSides vertices (i : Int)) vertices

/-- The vertex buffer of lines 174-195, for any `radius` and `numSides`.  Reading
`vertices[4]` .. `vertices[7]` outside the vector is undefined; the result is then `none`. -/
def buildVertices (m : CMath α) (radius : α) (numSides : Int) : Option (List α) :=
  let vertices : List α := []
  let vertices := push_back vertices 0.0
  let vertices := push_back vertices 0.0
  let vertices := push_back vertices 0.5
  let vertices := push_back vertices 0.5
  let vertices := boundaryLoop m radius numSides vertices
  match vertices[4]?, vertices[5]?, vertices[6]?, vertices[7]? with
  | some v4, some v5, some v6, some v7 =>
    let vertices := push_back vertices v4
    let vertices := push_back vertices v5
    let vertices := push_back vertices v6
    let vertices := push_back vertices v7
    some vertices
  | _, _, _, _ => none

/-- Number of floats per vertex: the stride `4 * sizeof(float)` of lines 205 and 207. -/
def floatsPerVertex : Nat := 4

/-- The vertex count passed to `glDrawArrays` (line 237). -/
def drawCount (numSides : Int) : Int :=
  numSides + 2

/-- Vertex `j` of a flat buffer: the four floats at `4*j .. 4*j+3`. -/
def vertexAt (vertices : List α) (j : Nat) : Option (α × α × α × α) :=
  match vertices[floatsPerVertex * j]?, vertices[floatsPerVertex * j + 1]?,
      vertices[floatsPerVertex * j + 2]?, vertices[floatsPerVertex * j + 3]? with
  | some x, some y, some u, some v => some (x, y, u, v)
  | _, _, _, _ => none

end Numeric

/-! ## External libraries: constants, calls, results -/

/-- The OpenGL enumerants recorded in the calls (`glad/glad.h`, not under src/). -/
inductive GLenum
  | GL_VERTEX_SHADER | GL_FRAGMENT_SHADER | GL_COMPILE_STATUS | GL_LINK_STATUS
  | GL_RED | GL_RGB | GL_RGBA | GL_TEXTURE_2D
  | GL_TEXTURE_WRAP_S | GL_TEXTURE_WRAP_T | GL_REPEAT
  | GL_TEXTURE_MIN_FILTER | GL_TEXTURE_MAG_FILTER | GL_LINEAR_MIPMAP_LINEAR | GL_LINEAR
  | GL_COLOR_BUFFER_BIT | GL_TEXTURE0 | GL_TRIANGLE_FAN
  deriving DecidableEq

/-- One call into an external library, or one statement writing to `std::cerr`.  Handles
and pointers are natural numbers, `0` being `NULL`.  Of the arguments of a call the
handles, pointers, sizes, counts, file names and the enumerants that tell two calls apart
are recorded; the shader sources and the other constant arguments are not. -/
inductive Call
  | cerr (msg : String)
  | glfwInit
  | glfwWindowHint
  | glfwCreateWindow (width height : Nat) (title : String)
  | glfwTerminate
  | glfwMakeContextCurrent (window : Nat)
  | glfwSetFramebufferSizeCallback (window : Nat)
  | glfwWindowShouldClose (window : Nat)
  | glfwGetKey (window : Nat)
  | glfwSetWindowShouldClose (window : Nat)
  | glfwGetTime
  | glfwSwapBuffers (window : Nat)
  | glfwPollEvents
  | SDL_Init
  | SDL_GetError
  | SDL_Quit
  | SDL_WasInit
  | Mix_Init (flags : Nat)
  | Mix_GetError
  | Mix_Quit
  | Mix_OpenAudio
  | Mix_CloseAudio
  | Mix_LoadMUS (file : String)
  | Mix_FreeMusic (music : Nat)
  | Mix_PlayMusic (music : Nat) (loops : Int)
  | gladLoadGLLoader
  | glCreateShader (type : GLenum)
  | glShaderSource (shader : Nat)
  | glCompileShader (shader : Nat)
  | glGetShaderiv (shader : Nat) (pname : GLenum)
  | glGetShaderInfoLog (shader : Nat)
  | glDeleteShader (shader : Nat)
  | glCreateProgram
  | glAttachShader (program shader : Nat)
  | glLinkProgram (program : Nat)
  | glGetProgramiv (program : Nat) (pname : GLenum)
  | glGetProgramInfoLog (program : Nat)
  | glDeleteProgram (program : Nat)
  | glUseProgram (program : Nat)
  | glGetUniformLocation (program : Nat) (name : String)
  | glUniform1i (location : Int) (v0 : Int)
  | glUniformMatrix4fv (location : Int)
  | glGenTextures
  | stbi_load (path : String)
  | stbi_image_free (data : Nat)
  | glDeleteTextures (texture : Nat)
  | glBindTexture (target : GLenum) (texture : Nat)
  | glTexImage2D (internalformat : GLenum) (width height : Int) (format : GLenum) (data : Nat)
  | glGenerateMipmap (target : GLenum)
  | glTexParameteri (pname param : GLenum)
  | glActiveTexture (texture : GLenum)
  | glGenVertexArrays
  | glGenBuffers
  | glBindVertexArray (array : Nat)
  | glBindBuffer (buffer : Nat)
  | glBufferData (size : Nat)
  | glVertexAttribPointer (index size stride pointer : Nat)
  | glEnableVertexAttribArray (index : Nat)
  | glDeleteVertexArrays (array : Nat)
  | glDeleteBuffers (buffer : Nat)
  | glClearColor
  | glClear (mask : GLenum)
  | glDrawArrays (mode : GLenum) (first count : Int)
  | glViewport (width height : Int)

/-- What the calls of `createShaderProgram` return. -/
structure ShaderEnv where
  /-- Result of `glCreateShader(GL_VERTEX_SHADER)`. -/
  vertexShader : Nat
  /-- Value `glGetShaderiv` stores in `success` for the vertex shader. -/
  vertexCompileStatus : Int
  /-- Result of `glCreateShader(GL_FRAGMENT_SHADER)`. -/
  fragmentShader : Nat
  /-- Value `glGetShaderiv` stores in `success` for the fragment shader. -/
  fragmentCompileStatus : Int
  /-- Result of `glCreateProgram()`. -/
  shaderProgram : Nat
  /-- Value `glGetProgramiv` stores in `success`. -/
  linkStatus : Int

/-- What the calls of `loadTexture` return. -/
structure TextureEnv where
  /-- Name stored by `glGenTextures` in `textureID`. -/
  textureID : Nat
  /-- Pointer returned by `stbi_load`; `0` is `NULL`. -/
  data : Nat
  width : Int
  height : Int
  nrComponents : Int

/-- What the window system delivers during one iteration of the render loop. -/
structure FrameInput (α : Type) where
  /-- Result of `glfwGetKey(window, GLFW_KEY_ESCAPE)`. -/
  glfwGetKey : Int
  /-- Result of `(float)glfwGetTime()`. -/
  glfwGetTime : α
  /-- Whether `glfwPollEvents` receives a close request for the window. -/
  closeRequested : Bool
  /-- Size passed to the frame-buffer callback by `glfwPollEvents`, if it is invoked. -/
  resize : Option (Int × Int)

/-- The environment of one run: header constants not under src/ and the results of the
external calls. -/
structure Env (α : Type) where
  /-- Constant `GLFW_PRESS` of `GLFW/glfw3.h`. -/
  GLFW_PRESS : Int
  /-- Constant `MIX_INIT_MP3` of `SDL2/SDL_mixer.h`. -/
  MIX_INIT_MP3 : Nat
  glfwInit : Int
  /-- Pointer returned by `glfwCreateWindow`; `0` is `NULL`. -/
  glfwCreateWindow : Nat
  SDL_Init : Int
  /-- Bit mask returned by `Mix_Init`: the set of `MIX_INIT_*` flags now initialised. -/
  Mix_Init : Nat
  Mix_OpenAudio : Int
  /-- Pointer returned by `Mix_LoadMUS`; `0` is `NULL`. -/
  Mix_LoadMUS : Nat
  Mix_PlayMusic : Int
  gladLoadGLLoader : Int
  shader : ShaderEnv
  texture : TextureEnv
  VAO : Nat
  VBO : Nat
  /-- Result of `glGetUniformLocation(shaderProgram, "ourTexture")`. -/
  ourTextureLoc : Int
  /-- Result of `glGetUniformLocation(shaderProgram, "transform")`. -/
  transformLoc : Int
  frames : List (FrameInput α)

/-- The state of a run: the calls made so far, the two globals of lines 65 and 67,
and the state the libraries keep. -/
structure World (α : Type) where
  trace : List Call
  /-- Global `backgroundMusic` (line 65); `0` is `NULL`. -/
  backgroundMusic : Nat
  /-- Global `mixerInitialized` (line 67). -/
  mixerInitialized : Bool
  /-- SDL: what `SDL_WasInit(SDL_INIT_AUDIO)` reports. -/
  sdlAudioInit : Bool
  /-- SDL_mixer: whether the audio device is open. -/
  audioDeviceOpen : Bool
  /-- GLFW: the close flag of the window. -/
  windowShouldClose : Bool
  /-- OpenGL: contents of the data store of the array buffer. -/
  arrayBuffer : List α
  /-- OpenGL: value of the uniform `transform`. -/
  transformUniform : Option (Mat4 α)

/-- How a run ends. -/
inductive Status
  /-- The value `main` returns. -/
  | exited (code : Int)
  /-- The frames of the environment are used up and the window is not closed. -/
  | running
  /-- The vertex vector is read out of bounds. -/
  | undefined
  deriving DecidableEq

/-- Result of `main`. -/
structure Outcome (α : Type) where
  world : World α
  status : Status

/-- The local variables of `main` that are live in the render loop and after it. -/
structure Locals where
  window : Nat
  shaderProgram : Nat
  texture : Nat
  numSides : Int
  VAO : Nat
  VBO : Nat

/-- Window width (line 29). -/
def SCR_WIDTH : Nat := 800

/-- Window height (line 30). -/
def SCR_HEIGHT : Nat := 600

/-- Size of a `float` in bytes. -/
def sizeof_float : Nat := 4

section Program

variable {α : Type}

/-- The state at program start: nothing called, globals as initialised at lines 65, 67. -/
def World.start : World α :=
  { trace := [], backgroundMusic := 0, mixerInitialized := false, sdlAudioInit := false,
    audioDeviceOpen := false, windowShouldClose := false, arrayBuffer := [],
    transformUniform := none }

/-- Record one call. -/
def World.call (w : World α) (c : Call) : World α :=
  { w with trace := w.trace ++ [c] }

/-- Modelled from the spec: `SDL_Init(SDL_INIT_AUDIO)` of SDL (not under src/); the audio
subsystem is reported as initialised from a successful call until `SDL_Quit`. -/
def SDL_Init (e : Env α) (w : World α) : World α :=
  { w.call .SDL_Init with sdlAudioInit := !decide (e.SDL_Init < 0) }

/-- Modelled from the spec: `SDL_Quit()` of SDL (not under src/). -/
def SDL_Quit (w : World α) : World α :=
  { w.call .SDL_Quit with sdlAudioInit := false }

/-- Modelled from the spec: `Mix_OpenAudio` of SDL_mixer (not under src/); the device is
open from a successful call until `Mix_CloseAudio`. -/
def Mix_OpenAudio (e : Env α) (w : World α) : World α :=
  { w.call .Mix_OpenAudio with audioDeviceOpen := !decide (e.Mix_OpenAudio < 0) }

/-- Modelled from the spec: `Mix_CloseAudio()` of SDL_mixer (not under src/). -/
def Mix_CloseAudio (w : World α) : World α :=
  { w.call .Mix_CloseAudio with audioDeviceOpen := false }

/-- Audio initialisation, lines 94-142 of `main`. -/
def initAudio (e : Env α) (w : World α) : World α :=
  let w := SDL_Init e w
  if e.SDL_Init < 0 then
    let w := w.call .SDL_GetError
    w.call (.cerr "Failed to initialize SDL: ")
  else
    let flags := e.MIX_INIT_MP3
    let w := w.call (.Mix_Init flags)
    if (e.Mix_Init &&& flags) ≠ flags then
      let w := w.call .Mix_GetError
      let w := w.call (.cerr "Failed to initialize SDL_mixer: ")
      SDL_Quit w
    else
      let w := Mix_OpenAudio e w
      if e.Mix_OpenAudio < 0 then
        let w := w.call .Mix_GetError
        let w := w.call (.cerr "Failed to open audio device: ")
        let w := w.call .Mix_Quit
        SDL_Quit w
      else
        let w := { w with mixerInitialized := true }
        let w := w.call (.Mix_LoadMUS "Pak_Vramroro.mp3")
        let w := { w with backgroundMusic := e.Mix_LoadMUS }
        if w.backgroundMusic = 0 then
          let w := w.call .Mix_GetError
          let w := w.call (.cerr "Failed to load music: ")
          let w := { w with mixerInitialized := false }
          let w := Mix_CloseAudio w
          let w := w.call .Mix_Quit
          SDL_Quit w
        else
          let w := w.call (.Mix_PlayMusic w.backgroundMusic (-1))
          if e.Mix_PlayMusic = -1 then
            let w := w.call .Mix_GetError
            let w := w.call (.cerr "Failed to play music: ")
            let w := { w with mixerInitialized := false }
            let w := w.call (.Mix_FreeMusic w.backgroundMusic)
            let w := { w with backgroundMusic := 0 }
            let w := Mix_CloseAudio w
            let w := w.call .Mix_Quit
            SDL_Quit w
          else
            w

/-- Audio shutdown, lines 248-261 of `main`. -/
def shutdownAudio (w : World α) : World α :=
  let w :=
    if w.backgroundMusic ≠ 0 then
      let w := w.call (.Mix_FreeMusic w.backgroundMusic)
      { w with backgroundMusic := 0 }
    else w
  let w :=
    if w.mixerInitialized then
      let w := Mix_CloseAudio w
      w.call .Mix_Quit
    else w
  let w := w.call .SDL_WasInit
  if w.sdlAudioInit then
    SDL_Quit w
  else w

/-- The function `createShaderProgram` (lines 278-328): the handle returned and the
state after the call. -/
def createShaderProgram (e : ShaderEnv) (w : World α) : Nat × World α :=
  let w := w.call (.glCreateShader .GL_VERTEX_SHADER)
  let vertexShader := e.vertexShader
  let w := w.call (.glShaderSource vertexShader)
  let w := w.call (.glCompileShader vertexShader)
  let w := w.call (.glGetShaderiv vertexShader .GL_COMPILE_STATUS)
  let success := e.vertexCompileStatus
  if success = 0 then
    let w := w.call (.glGetShaderInfoLog vertexShader)
    let w := w.call (.cerr "ERROR::SHADER::VERTEX::COMPILATION_FAILED\n")
    (0, w)
  else
    let w := w.call (.glCreateShader .GL_FRAGMENT_SHADER)
    let fragmentShader := e.fragmentShader
    let w := w.call (.glShaderSource fragmentShader)
    let w := w.call (.glCompileShader fragmentShader)
    let w := w.call (.glGetShaderiv fragmentShader .GL_COMPILE_STATUS)
    let success := e.fragmentCompileStatus
    if success = 0 then
      let w := w.call (.glGetShaderInfoLog fragmentShader)
      let w := w.call (.cerr "ERROR::SHADER::FRAGMENT::COMPILATION_FAILED\n")
      let w := w.call (.glDeleteShader vertexShader)
      (0, w)
    else
      let w := w.call .glCreateProgram
      let shaderProgram := e.shaderProgram
      let w := w.call (.glAttachShader shaderProgram vertexShader)
      let w := w.call (.glAttachShader shaderProgram fragmentShader)
      let w := w.call (.glLinkProgram shaderProgram)
      let w := w.call (.glGetProgramiv shaderProgram .GL_LINK_STATUS)
      let success := e.linkStatus
      if success = 0 then
        let w := w.call (.glGetProgramInfoLog shaderProgram)
        let w := w.call (.cerr "ERROR::SHADER::PROGRAM::LINKING_FAILED\n")
        let w := w.call (.glDeleteShader vertexShader)
        let w := w.call (.glDeleteShader fragmentShader)
        (0, w)
      else
        let w := w.call (.glDeleteShader vertexShader)
        let w := w.call (.glDeleteShader fragmentShader)
        (shaderProgram, w)

/-- The `if` / `else if` chain of lines 340-345; `none` is the final `else`. -/
def textureFormat (nrComponents : Int) : Option GLenum :=
  if nrComponents = 1 then some .GL_RED
  else if nrComponents = 3 then some .GL_RGB
  else if nrComponents = 4 then some .GL_RGBA
  else none

/-- The function `loadTexture` (lines 330-374): the handle returned and the state after
the call. -/
def loadTexture (e : TextureEnv) (path : String) (w : World α) : Nat × World α :=
  let w := w.call .glGenTextures
  let textureID := e.textureID
  let w := w.call (.stbi_load path)
  let data := e.data
  if data ≠ 0 then
    match textureFormat e.nrComponents with
    | none =>
      let w := w.call (.cerr "Texture format not supported: ")
      let w := w.call (.stbi_image_free data)
      let w := w.call (.glDeleteTextures textureID)
      (0, w)
    | some format =>
      let w := w.call (.glBindTexture .GL_TEXTURE_2D textureID)
      let w := w.call (.glTexImage2D format e.width e.height format data)
      let w := w.call (.glGenerateMipmap .GL_TEXTURE_2D)
      let w := w.call (.glTexParameteri .GL_TEXTURE_WRAP_S .GL_REPEAT)
      let w := w.call (.glTexParameteri .GL_TEXTURE_WRAP_T .GL_REPEAT)
      let w := w.call (.glTexParameteri .GL_TEXTURE_MIN_FILTER .GL_LINEAR_MIPMAP_LINEAR)
      let w := w.call (.glTexParameteri .GL_TEXTURE_MAG_FILTER .GL_LINEAR)
      let w := w.call (.stbi_image_free data)
      (textureID, w)
  else
    let w := w.call (.cerr "Texture failed to load at path: ")
    let w := w.call (.stbi_image_free data)
    let w := w.call (.glDeleteTextures textureID)
    (0, w)

/-- Modelled from the spec: `glfwSetWindowShouldClose(window, true)` of GLFW (not under
src/) sets the close flag that `glfwWindowShouldClose` reads. -/
def glfwSetWindowShouldClose (window : Nat) (w : World α) : World α :=
  { w.call (.glfwSetWindowShouldClose window) with windowShouldClose := true }

/-- The function `processInput` (lines 267-271). -/
def processInput (e : Env α) (f : FrameInput α) (window : Nat) (w : World α) : World α :=
  let w := w.call (.glfwGetKey window)
  if f.glfwGetKey = e.GLFW_PRESS then
    glfwSetWindowShouldClose window w
  else
    w

/-- The function `framebuffer_size_callback` (lines 273-276). -/
def framebuffer_size_callback (width height : Int) (w : World α) : World α :=
  w.call (.glViewport width height)

/-- Modelled from the spec: `glfwPollEvents()` of GLFW (not under src/): it runs the
frame-buffer callback on a resize and sets the close flag on a close request. -/
def glfwPollEvents (f : FrameInput α) (w : World α) : World α :=
  let w := w.call .glfwPollEvents
  let w :=
    match f.resize with
    | some (width, height) => framebuffer_size_callback width height w
    | none => w
  if f.closeRequested then { w with windowShouldClose := true } else w

/-- Modelled from the spec: `glBufferData` of OpenGL (not under src/) copies the data
into the store of the bound buffer. -/
def glBufferData (size : Nat) (data : List α) (w : World α) : World α :=
  { w.call (.glBufferData size) with arrayBuffer := data }

/-- Modelled from the spec: `glUniformMatrix4fv` of OpenGL (not under src/) sets the
uniform to the matrix. -/
def glUniformMatrix4fv (location : Int) (value : Mat4 α) (w : World α) : World α :=
  { w.call (.glUniformMatrix4fv location) with transformUniform := some value }

variable [Add α] [Sub α] [Mul α] [Div α] [IntCast α] [OfScientific α]

/-- Body of the render loop, lines 220-240 of `main`. -/
def renderFrame (m : CMath α) (e : Env α) (l : Locals) (f : FrameInput α) (w : World α) :
    World α :=
  let w := processInput e f l.window w
  let w := w.call .glClearColor
  let w := w.call (.glClear .GL_COLOR_BUFFER_BIT)
  let w := w.call (.glActiveTexture .GL_TEXTURE0)
  let w := w.call (.glBindTexture .GL_TEXTURE_2D l.texture)
  let w := w.call (.glUseProgram l.shaderProgram)
  let w := w.call .glfwGetTime
  let mat := transform m f.glfwGetTime
  let w := w.call (.glGetUniformLocation l.shaderProgram "transform")
  let transformLoc := e.transformLoc
  let w := glUniformMatrix4fv transformLoc mat w
  let w := w.call (.glBindVertexArray l.VAO)
  let w := w.call (.glDrawArrays .GL_TRIANGLE_FAN 0 (drawCount l.numSides))
  let w := w.call (.glfwSwapBuffers l.window)
  glfwPollEvents f w

/-- The render loop, lines 218-241 of `main`, run on the frames the environment
supplies.  The flag tells whether the loop was left. -/
def renderLoop (m : CMath α) (e : Env α) (l : Locals) :
    List (FrameInput α) → World α → World α × Bool
  | [], w =>
    let w := w.call (.glfwWindowShouldClose l.window)
    (w, w.windowShouldClose)
  | f :: frames, w =>
    let w := w.call (.glfwWindowShouldClose l.window)
    if w.windowShouldClose then
      (w, true)
    else
      renderLoop m e l frames (renderFrame m e l f w)

/-- Lines 73-214 of `main`: everything before the render loop.  Either the run ends
there, or the loop is entered. -/
def startup (m : CMath α) (e : Env α) : Outcome α ⊕ (Locals × World α) :=
  let w : World α := World.start
  let w := w.call .glfwInit
  if e.glfwInit = 0 then
    let w := w.call (.cerr "Failed to initialize GLFW")
    .inl ⟨w, .exited (-1)⟩
  else
    let w := w.call .glfwWindowHint
    let w := w.call .glfwWindowHint
    let w := w.call .glfwWindowHint
    let w := w.call (.glfwCreateWindow SCR_WIDTH SCR_HEIGHT "Rotating Pak Vramroro")
    let window := e.glfwCreateWindow
    if window = 0 then
      let w := w.call (.cerr "Failed to create GLFW window")
      let w := w.call .glfwTerminate
      .inl ⟨w, .exited (-1)⟩
    else
      let w := w.call (.glfwMakeContextCurrent window)
      let w := w.call (.glfwSetFramebufferSizeCallback window)
      let w := initAudio e w
      let w := w.call .gladLoadGLLoader
      if e.gladLoadGLLoader = 0 then
        let w := w.call (.cerr "Failed to initialize GLAD")
        .inl ⟨w, .exited (-1)⟩
      else
        let r := createShaderProgram e.shader w
        let shaderProgram := r.1
        let w := r.2
        if shaderProgram = 0 then
          let w := w.call .glfwTerminate
          .inl ⟨w, .exited (-1)⟩
        else
          let r := loadTexture e.texture "gemoy.png" w
          let texture := r.1
          let w := r.2
          if texture = 0 then
            let w := w.call (.cerr "Failed to load texture")
            let w := w.call (.glDeleteProgram shaderProgram)
            let w := w.call .glfwTerminate
            .inl ⟨w, .exited (-1)⟩
          else
            let radius : α := 0.5
            let numSides : Int := 8
            match buildVertices m radius numSides with
            | none => .inl ⟨w, .undefined⟩
            | some vertices =>
              let w := w.call .glGenVertexArrays
              let VAO := e.VAO
              let w := w.call .glGenBuffers
              let VBO := e.VBO
              let w := w.call (.glBindVertexArray VAO)
              let w := w.call (.glBindBuffer VBO)
              let w := glBufferData (vertices.length * sizeof_float) vertices w
              let w := w.call (.glVertexAttribPointer 0 2 (4 * sizeof_float) 0)
              let w := w.call (.glEnableVertexAttribArray 0)
              let w := w.call (.glVertexAttribPointer 1 2 (4 * sizeof_float) (2 * sizeof_float))
              let w := w.call (.glEnableVertexAttribArray 1)
              let w := w.call (.glBindBuffer 0)
              let w := w.call (.glBindVertexArray 0)
              let w := w.call (.glUseProgram shaderProgram)
              let w := w.call (.glGetUniformLocation shaderProgram "ourTexture")
              let w := w.call (.glUniform1i e.ourTextureLoc 0)
              .inr (⟨window, shaderProgram, texture, numSides, VAO, VBO⟩, w)

/-- Lines 73-241 of `main`: start-up and render loop.  Either the run ends before line
243, or line 243 is reached in the given state. -/
def untilShutdown (m : CMath α) (e : Env α) : Outcome α ⊕ (Locals × World α) :=
  match startup m e with
  | .inl out => .inl out
  | .inr (l, w) =>
    let r := renderLoop m e l e.frames w
    if r.2 then .inr (l, r.1) else .inl ⟨r.1, .running⟩

/-- Lines 243-264 of `main`: release of the resources after the render loop. -/
def shutdown (l : Locals) (w : World α) : World α :=
  let w := w.call (.glDeleteVertexArrays l.VAO)
  let w := w.call (.glDeleteBuffers l.VBO)
  let w := w.call (.glDeleteProgram l.shaderProgram)
  let w := w.call (.glDeleteTextures l.texture)
  let w := shutdownAudio w
  w.call .glfwTerminate

/-- The function `main` (lines 69-265). -/
def main (m : CMath α) (e : Env α) : Outcome α :=
  match untilShutdown m e with
  | .inl out => out
  | .inr (l, w) => ⟨shutdown l w, .exited 0⟩

end Program

/-! ## Definitions used to state and prove the properties -/

section MeshObservations

variable {α : Type} [Add α] [Mul α] [Div α] [IntCast α] [OfScientific α]

/-- The four floats the loop body appends for index `i`. -/
def boundaryChunk (m : CMath α) (radius : α) (numSides : Int) (i : Int) : List α :=
  let angle : α := (i : α) * ((2.0 : α) * m.M_PI / (numSides : α))
  [radius * m.cos angle, radius * m.sin angle,
   (0.5 : α) + (0.5 : α) * m.cos angle, (0.5 : α) + (0.5 : α) * m.sin angle]

/-- The floats appended by the first `n` iterations of the loop. -/
def boundaryFloats (m : CMath α) (radius : α) (numSides : Int) (n : Nat) : List α :=
  (List.range n).flatMap (fun (i : Nat) => boundaryChunk m radius numSides (i : Int))

end MeshObservations

/-! ## Observations on traces -/

/-- The calls recorded in `w'` after the state `w`. -/
def World.since {α : Type} (w' w : World α) : List Call :=
  w'.trace.drop w.trace.length

/-- Recogniser of the calls `stbi_image_free`. -/
def Call.is_stbi_image_free : Call → Bool
  | .stbi_image_free _ => true
  | _ => false

/-- Recogniser of the calls `glTexImage2D`. -/
def Call.is_glTexImage2D : Call → Bool
  | .glTexImage2D _ _ _ _ _ => true
  | _ => false

/-- Recogniser of the calls `glDeleteProgram`. -/
def Call.is_glDeleteProgram : Call → Bool
  | .glDeleteProgram _ => true
  | _ => false

/-- Recogniser of the calls `glfwTerminate`. -/
def Call.is_glfwTerminate : Call → Bool
  | .glfwTerminate => true
  | _ => false

/-- The four release operations of the audio libraries. -/
inductive AudioRelease
  | Mix_FreeMusic
  | Mix_CloseAudio
  | Mix_Quit
  | SDL_Quit
  deriving DecidableEq

/-- The audio release operation a call performs, if it is one. -/
def Call.audioRelease : Call → Option AudioRelease
  | .Mix_FreeMusic _ => some .Mix_FreeMusic
  | .Mix_CloseAudio => some .Mix_CloseAudio
  | .Mix_Quit => some .Mix_Quit
  | .SDL_Quit => some .SDL_Quit
  | _ => none

/-- The audio release operations of a trace, in order. -/
def audioReleases (trace : List Call) : List AudioRelease :=
  trace.filterMap Call.audioRelease

/-- The audio part of a state: release operations so far, the two globals, and the
state of SDL and SDL_mixer. -/
structure AudioView where
  releases : List AudioRelease
  backgroundMusic : Nat
  mixerInitialized : Bool
  sdlAudioInit : Bool
  audioDeviceOpen : Bool

/-- The audio part of a state. -/
def World.audioView {α : Type} (w : World α) : AudioView :=
  ⟨audioReleases w.trace, w.backgroundMusic, w.mixerInitialized, w.sdlAudioInit,
    w.audioDeviceOpen⟩

/-- The environment `e` with other results of the five audio calls. -/
def Env.withAudio {α : Type} (e : Env α) (sdlInit : Int) (mixInit : Nat) (openAudio : Int)
    (loadMUS : Nat) (playMusic : Int) : Env α :=
  { e with SDL_Init := sdlInit, Mix_Init := mixInit, Mix_OpenAudio := openAudio,
           Mix_LoadMUS := loadMUS, Mix_PlayMusic := playMusic }

/-- `SDL_Init` is called and succeeds (line 95). -/
def Env.SDL_Init_ok {α : Type} (e : Env α) : Prop :=
  ¬ e.SDL_Init < 0

/-- `Mix_Init` is called and succeeds (line 102). -/
def Env.Mix_Init_ok {α : Type} (e : Env α) : Prop :=
  e.SDL_Init_ok ∧ (e.Mix_Init &&& e.MIX_INIT_MP3) = e.MIX_INIT_MP3

/-- `Mix_OpenAudio` is called and succeeds (line 109). -/
def Env.Mix_OpenAudio_ok {α : Type} (e : Env α) : Prop :=
  e.Mix_Init_ok ∧ ¬ e.Mix_OpenAudio < 0

/-- `Mix_LoadMUS` is called and succeeds (lines 118-119). -/
def Env.Mix_LoadMUS_ok {α : Type} (e : Env α) : Prop :=
  e.Mix_OpenAudio_ok ∧ e.Mix_LoadMUS ≠ 0

/-- `createShaderProgram` returns a non-zero handle. -/
def ShaderEnv.ok (e : ShaderEnv) : Prop :=
  e.vertexCompileStatus ≠ 0 ∧ e.fragmentCompileStatus ≠ 0 ∧ e.linkStatus ≠ 0
    ∧ e.shaderProgram ≠ 0

/-- `loadTexture` returns a non-zero handle. -/
def TextureEnv.ok (e : TextureEnv) : Prop :=
  e.data ≠ 0 ∧ (e.nrComponents = 1 ∨ e.nrComponents = 3 ∨ e.nrComponents = 4)
    ∧ e.textureID ≠ 0

/-- Every step of the start-up other than the audio steps succeeds. -/
def Env.startsUp {α : Type} (e : Env α) : Prop :=
  e.glfwInit ≠ 0 ∧ e.glfwCreateWindow ≠ 0 ∧ e.gladLoadGLLoader ≠ 0 ∧ e.shader.ok ∧ e.texture.ok

/-- The state before the audio initialisation (line 94) when GLFW and the window are up. -/
def beforeAudio {α : Type} (e : Env α) : World α :=
  (((((((World.start : World α).call .glfwInit).call .glfwWindowHint).call
    .glfwWindowHint).call .glfwWindowHint).call
    (.glfwCreateWindow SCR_WIDTH SCR_HEIGHT "Rotating Pak Vramroro")).call
    (.glfwMakeContextCurrent e.glfwCreateWindow)).call
    (.glfwSetFramebufferSizeCallback e.glfwCreateWindow)

/-- The values of the locals of `main` when the render loop is entered. -/
def Env.locals {α : Type} (e : Env α) : Locals :=
  ⟨e.glfwCreateWindow, e.shader.shaderProgram, e.texture.textureID, 8, e.VAO, e.VBO⟩

/-! ## Concrete environments -/

/-- An environment in which every call succeeds and the escape key is down in the first
frame. -/
def escapeRun : Env ℝ :=
  { GLFW_PRESS := 1, MIX_INIT_MP3 := 8, glfwInit := 1, glfwCreateWindow := 100, SDL_Init := 0,
    Mix_Init := 8, Mix_OpenAudio := 0, Mix_LoadMUS := 200, Mix_PlayMusic := 0,
    gladLoadGLLoader := 1, shader := ⟨1, 1, 2, 1, 3, 1⟩, texture := ⟨1, 300, 64, 64, 4⟩,
    VAO := 1, VBO := 1, ourTextureLoc := 0, transformLoc := 1,
    frames := [⟨1, 0, false, none⟩] }

/-- The environment `escapeRun`, except that `gladLoadGLLoader` fails. -/
def gladFailure : Env ℝ :=
  { escapeRun with gladLoadGLLoader := 0 }

/-- The environment `escapeRun`, except that `stbi_load` fails. -/
def textureFailure : Env ℝ :=
  { escapeRun with texture := ⟨1, 0, 0, 0, 0⟩ }

/-! ## Mesh generation: lemmas -/

section MeshLemmas
variable {α : Type} [Add α] [Mul α] [Div α] [IntCast α] [OfScientific α]

theorem boundaryVertex_eq (m : CMath α) (radius : α) (numSides : Int) (vertices : List α)
    (i : Int) :
    boundaryVertex m radius numSides vertices i
      = vertices ++ boundaryChunk m radius numSides i := by
  simp [boundaryVertex, boundaryChunk, push_back]

theorem foldl_boundaryVertex (m : CMath α) (radius : α) (numSides : Int) (n : Nat)
    (vertices : List α) :
    (List.range n).foldl
        (fun vertices (i : Nat) => boundaryVertex m radius numSides vertices (i : Int)) vertices
      = vertices ++ boundaryFloats m radius numSides n := by
  induction n with
  | zero => simp [boundaryFloats]
  | succ n ih =>
    rw [List.range_succ, List.foldl_append, ih]
    simp [boundaryVertex_eq, boundaryFloats, List.range_succ]

theorem boundaryFloats_length (m : CMath α) (radius : α) (numSides : Int) (n : Nat) :
    (boundaryFloats m radius numSides n).length = 4 * n := by
  induction n with
  | zero => simp [boundaryFloats]
  | succ n ih =>
    have h : boundaryFloats m radius numSides (n + 1)
        = boundaryFloats m radius numSides n ++ boundaryChunk m radius numSides (n : Int) := by
      simp [boundaryFloats, List.range_succ]
    rw [h, List.length_append, ih]
    simp [boundaryChunk]
    omega

theorem boundaryFloats_getElem? (m : CMath α) (radius : α) (numSides : Int) (n i k : Nat)
    (hi : i < n) (hk : k < 4) :
    (boundaryFloats m radius numSides n)[4 * i + k]?
      = (boundaryChunk m radius numSides (i : Int))[k]? := by
  induction n with
  | zero => omega
  | succ n ih =>
    have h : boundaryFloats m radius numSides (n + 1)
        = boundaryFloats m radius numSides n ++ boundaryChunk m radius numSides (n : Int) := by
      simp [boundaryFloats, List.range_succ]
    rw [h]
    by_cases hin : i < n
    · rw [List.getElem?_append_left (by rw [boundaryFloats_length]; omega)]
      exact ih hin
    · have hi' : i = n := by omega
      subst hi'
      rw [List.getElem?_append_right (by rw [boundaryFloats_length]; omega),
        boundaryFloats_length]
      congr 1
      omega

theorem boundaryLoop_eq (m : CMath α) (radius : α) (numSides : Int) (vertices : List α) :
    boundaryLoop m radius numSides vertices
      = vertices ++ boundaryFloats m radius numSides numSides.toNat := by
  unfold boundaryLoop
  exact foldl_boundaryVertex m radius numSides numSides.toNat vertices

/-- Float `4 + (4 * i + k)` of centre ++ boundary floats is float `k` of chunk `i`. -/
theorem centre_boundary_getElem? (m : CMath α) (radius : α) (numSides : Int) (i k : Nat)
    (hi : i < numSides.toNat) (hk : k < 4) (c0 c1 c2 c3 : α) (rest : List α) :
    ([c0, c1, c2, c3] ++ boundaryFloats m radius numSides numSides.toNat ++ rest)[4 + (4 * i + k)]?
      = (boundaryChunk m radius numSides (i : Int))[k]? := by
  have hlen := boundaryFloats_length m radius numSides numSides.toNat
  rw [List.append_assoc, List.getElem?_append_right (by simp)]
  rw [List.getElem?_append_left (by simp; omega)]
  simp only [List.length_cons, List.length_nil]
  have : 4 + (4 * i + k) - (0 + 1 + 1 + 1 + 1) = 4 * i + k := by omega
  rw [this]
  exact boundaryFloats_getElem? m radius numSides numSides.toNat i k hi hk

theorem buildVertices_eq (m : CMath α) (radius : α) (numSides : Int) (h : 1 ≤ numSides) :
    buildVertices m radius numSides
      = some ([0.0, 0.0, 0.5, 0.5] ++ boundaryFloats m radius numSides numSides.toNat
          ++ boundaryChunk m radius numSides 0) := by
  have hn : 0 < numSides.toNat := by omega
  have g := fun k hk =>
    centre_boundary_getElem? m radius numSides 0 k hn hk (0.0 : α) 0.0 0.5 0.5 []
  have g0 := g 0 (by omega)
  have g1 := g 1 (by omega)
  have g2 := g 2 (by omega)
  have g3 := g 3 (by omega)
  simp only [List.append_nil, Nat.mul_zero, Nat.zero_add, Nat.add_zero, Nat.reduceAdd] at g0 g1 g2 g3
  simp only [buildVertices, push_back, boundaryLoop_eq, List.nil_append, List.cons_append,
    List.append_assoc] at *
  rw [g0, g1, g2, g3]
  simp [boundaryChunk]

theorem vertexAt_boundary (m : CMath α) (radius : α) (numSides : Int) (i : Nat)
    (hi : i < numSides.toNat) (c0 c1 c2 c3 : α) (rest : List α) :
    vertexAt ([c0, c1, c2, c3] ++ boundaryFloats m radius numSides numSides.toNat ++ rest) (i + 1)
      = some (radius * m.cos ((i : Int) * ((2.0 : α) * m.M_PI / (numSides : α))),
              radius * m.sin ((i : Int) * ((2.0 : α) * m.M_PI / (numSides : α))),
              (0.5 : α) + (0.5 : α) * m.cos ((i : Int) * ((2.0 : α) * m.M_PI / (numSides : α))),
              (0.5 : α) + (0.5 : α) * m.sin ((i : Int) * ((2.0 : α) * m.M_PI / (numSides : α)))) := by
  have g := fun k hk =>
    centre_boundary_getElem? m radius numSides i k hi hk c0 c1 c2 c3 rest
  have g0 := g 0 (by omega)
  have g1 := g 1 (by omega)
  have g2 := g 2 (by omega)
  have g3 := g 3 (by omega)
  have e0 : floatsPerVertex * (i + 1) = 4 + (4 * i + 0) := by simp [floatsPerVertex]; omega
  have e1 : floatsPerVertex * (i + 1) + 1 = 4 + (4 * i + 1) := by simp [floatsPerVertex]; omega
  have e2 : floatsPerVertex * (i + 1) + 2 = 4 + (4 * i + 2) := by simp [floatsPerVertex]; omega
  have e3 : floatsPerVertex * (i + 1) + 3 = 4 + (4 * i + 3) := by simp [floatsPerVertex]; omega
  unfold vertexAt
  rw [e3, e2, e1, e0, g0, g1, g2, g3]
  simp [boundaryChunk]

theorem vertexAt_last (m : CMath α) (radius : α) (numSides : Int) (c0 c1 c2 c3 : α)
    (r0 r1 r2 r3 : α) :
    vertexAt ([c0, c1, c2, c3] ++ boundaryFloats m radius numSides numSides.toNat
        ++ [r0, r1, r2, r3]) (numSides.toNat + 1)
      = some (r0, r1, r2, r3) := by
  have hlen := boundaryFloats_length m radius numSides numSides.toNat
  have hl : ([c0, c1, c2, c3] ++ boundaryFloats m radius numSides numSides.toNat).length
      = floatsPerVertex * (numSides.toNat + 1) := by
    simp [floatsPerVertex, hlen]; omega
  unfold vertexAt
  rw [List.getElem?_append_right (by omega), List.getElem?_append_right (by omega),
    List.getElem?_append_right (by omega), List.getElem?_append_right (by omega), hl]
  simp

end MeshLemmas

/-! ## Rotation transform: lemmas -/

theorem transform_real (t : ℝ) :
    transform (⟨Real.cos, Real.sin, fun x => 1 / Real.sqrt x, Real.pi⟩ : CMath ℝ) t
      = ⟨⟨Real.cos t, Real.sin t, 0, 0⟩, ⟨-Real.sin t, Real.cos t, 0, 0⟩,
         ⟨0, 0, 1, 0⟩, ⟨0, 0, 0, 1⟩⟩ := by
  simp [transform, rotate, normalize, mat4, Vec4.scale, Vec4.add]
  norm_num

/-! ## Texture loader and shader builder: lemmas -/

section Traces
variable {α : Type}

@[simp] theorem World.call_trace (w : World α) (c : Call) :
    (w.call c).trace = w.trace ++ [c] := rfl

theorem since_append (w' w : World α) (calls : List Call) (h : w'.trace = w.trace ++ calls) :
    w'.since w = calls := by
  simp [World.since, h]

/-- The calls of `loadTexture` on each of its three paths. -/
theorem loadTexture_since (e : TextureEnv) (path : String) (w : World α) :
    (loadTexture e path w).2.since w =
      if e.data ≠ 0 then
        match textureFormat e.nrComponents with
        | none => [.glGenTextures, .stbi_load path, .cerr "Texture format not supported: ",
            .stbi_image_free e.data, .glDeleteTextures e.textureID]
        | some format => [.glGenTextures, .stbi_load path,
            .glBindTexture .GL_TEXTURE_2D e.textureID,
            .glTexImage2D format e.width e.height format e.data,
            .glGenerateMipmap .GL_TEXTURE_2D,
            .glTexParameteri .GL_TEXTURE_WRAP_S .GL_REPEAT,
            .glTexParameteri .GL_TEXTURE_WRAP_T .GL_REPEAT,
            .glTexParameteri .GL_TEXTURE_MIN_FILTER .GL_LINEAR_MIPMAP_LINEAR,
            .glTexParameteri .GL_TEXTURE_MAG_FILTER .GL_LINEAR,
            .stbi_image_free e.data]
      else [.glGenTextures, .stbi_load path, .cerr "Texture failed to load at path: ",
            .stbi_image_free e.data, .glDeleteTextures e.textureID] := by
  apply since_append
  unfold loadTexture
  by_cases hd : e.data = 0
  · simp [hd]
  · cases hf : textureFormat e.nrComponents <;> simp [hd, hf]

theorem loadTexture_fst (e : TextureEnv) (path : String) (w : World α) :
    (loadTexture e path w).1 =
      if e.data ≠ 0 then
        match textureFormat e.nrComponents with
        | none => 0
        | some _ => e.textureID
      else 0 := by
  unfold loadTexture
  by_cases hd : e.data = 0
  · simp [hd]
  · cases hf : textureFormat e.nrComponents <;> simp [hd, hf]

end Traces

section Shader
variable {α : Type}

/-- The calls of `createShaderProgram` on each of its four paths. -/
theorem createShaderProgram_since (e : ShaderEnv) (w : World α) :
    (createShaderProgram e w).2.since w =
      if e.vertexCompileStatus = 0 then
        [.glCreateShader .GL_VERTEX_SHADER, .glShaderSource e.vertexShader,
         .glCompileShader e.vertexShader, .glGetShaderiv e.vertexShader .GL_COMPILE_STATUS,
         .glGetShaderInfoLog e.vertexShader,
         .cerr "ERROR::SHADER::VERTEX::COMPILATION_FAILED\n"]
      else if e.fragmentCompileStatus = 0 then
        [.glCreateShader .GL_VERTEX_SHADER, .glShaderSource e.vertexShader,
         .glCompileShader e.vertexShader, .glGetShaderiv e.vertexShader .GL_COMPILE_STATUS,
         .glCreateShader .GL_FRAGMENT_SHADER, .glShaderSource e.fragmentShader,
         .glCompileShader e.fragmentShader, .glGetShaderiv e.fragmentShader .GL_COMPILE_STATUS,
         .glGetShaderInfoLog e.fragmentShader,
         .cerr "ERROR::SHADER::FRAGMENT::COMPILATION_FAILED\n",
         .glDeleteShader e.vertexShader]
      else if e.linkStatus = 0 then
        [.glCreateShader .GL_VERTEX_SHADER, .glShaderSource e.vertexShader,
         .glCompileShader e.vertexShader, .glGetShaderiv e.vertexShader .GL_COMPILE_STATUS,
         .glCreateShader .GL_FRAGMENT_SHADER, .glShaderSource e.fragmentShader,
         .glCompileShader e.fragmentShader, .glGetShaderiv e.fragmentShader .GL_COMPILE_STATUS,
         .glCreateProgram, .glAttachShader e.shaderProgram e.vertexShader,
         .glAttachShader e.shaderProgram e.fragmentShader, .glLinkProgram e.shaderProgram,
         .glGetProgramiv e.shaderProgram .GL_LINK_STATUS,
         .glGetProgramInfoLog e.shaderProgram,
         .cerr "ERROR::SHADER::PROGRAM::LINKING_FAILED\n",
         .glDeleteShader e.vertexShader, .glDeleteShader e.fragmentShader]
      else
        [.glCreateShader .GL_VERTEX_SHADER, .glShaderSource e.vertexShader,
         .glCompileShader e.vertexShader, .glGetShaderiv e.vertexShader .GL_COMPILE_STATUS,
         .glCreateShader .GL_FRAGMENT_SHADER, .glShaderSource e.fragmentShader,
         .glCompileShader e.fragmentShader, .glGetShaderiv e.fragmentShader .GL_COMPILE_STATUS,
         .glCreateProgram, .glAttachShader e.shaderProgram e.vertexShader,
         .glAttachShader e.shaderProgram e.fragmentShader, .glLinkProgram e.shaderProgram,
         .glGetProgramiv e.shaderProgram .GL_LINK_STATUS,
         .glDeleteShader e.vertexShader, .glDeleteShader e.fragmentShader] := by
  apply since_append
  unfold createShaderProgram
  by_cases hv : e.vertexCompileStatus = 0
  · simp [hv]
  · by_cases hf : e.fragmentCompileStatus = 0
    · simp [hv, hf]
    · by_cases hl : e.linkStatus = 0 <;> simp [hv, hf, hl]

theorem createShaderProgram_fst (e : ShaderEnv) (w : World α) :
    (createShaderProgram e w).1 =
      if e.vertexCompileStatus = 0 then 0
      else if e.fragmentCompileStatus = 0 then 0
      else if e.linkStatus = 0 then 0
      else e.shaderProgram := by
  unfold createShaderProgram
  by_cases hv : e.vertexCompileStatus = 0
  · simp [hv]
  · by_cases hf : e.fragmentCompileStatus = 0
    · simp [hv, hf]
    · by_cases hl : e.linkStatus = 0 <;> simp [hv, hf, hl]

theorem createShaderProgram_trace (e : ShaderEnv) (w : World α) :
    (createShaderProgram e w).2.trace = w.trace ++ (createShaderProgram e w).2.since w := by
  unfold createShaderProgram
  by_cases hv : e.vertexCompileStatus = 0
  · simp [hv, World.since]
  · by_cases hf : e.fragmentCompileStatus = 0
    · simp [hv, hf, World.since]
    · by_cases hl : e.linkStatus = 0 <;> simp [hv, hf, hl, World.since]

end Shader

/-! ## What the parts of `main` change and what they leave as it is -/

section Frames
variable {α : Type}

@[simp] theorem World.call_windowShouldClose (w : World α) (c : Call) :
    (w.call c).windowShouldClose = w.windowShouldClose := rfl

theorem audioView_call (w : World α) (c : Call) (h : c.audioRelease = none) :
    (w.call c).audioView = w.audioView := by
  simp [World.audioView, World.call, audioReleases, List.filterMap_append, h]

theorem grows_call (w : World α) (c : Call) : w.trace <+: (w.call c).trace :=
  List.prefix_append _ _

/-! ### `createShaderProgram` and `loadTexture` only append calls -/

theorem createShaderProgram_snd (e : ShaderEnv) (w : World α) :
    (createShaderProgram e w).2
      = { w with trace := w.trace ++ (createShaderProgram e w).2.since w } := by
  unfold createShaderProgram
  by_cases hv : e.vertexCompileStatus = 0
  · simp [hv, World.since, World.call]
  · by_cases hf : e.fragmentCompileStatus = 0
    · simp [hv, hf, World.since, World.call]
    · by_cases hl : e.linkStatus = 0 <;> simp [hv, hf, hl, World.since, World.call]

theorem loadTexture_snd (e : TextureEnv) (path : String) (w : World α) :
    (loadTexture e path w).2
      = { w with trace := w.trace ++ (loadTexture e path w).2.since w } := by
  unfold loadTexture
  by_cases hd : e.data = 0
  · simp [hd, World.since, World.call]
  · cases hf : textureFormat e.nrComponents <;> simp [hd, hf, World.since, World.call]

theorem createShaderProgram_audioReleases (e : ShaderEnv) (w : World α) :
    audioReleases ((createShaderProgram e w).2.since w) = [] := by
  rw [createShaderProgram_since]
  split_ifs <;> rfl

theorem loadTexture_audioReleases (e : TextureEnv) (path : String) (w : World α) :
    audioReleases ((loadTexture e path w).2.since w) = [] := by
  rw [loadTexture_since]
  by_cases hd : e.data = 0
  · simp [hd]; rfl
  · cases hf : textureFormat e.nrComponents <;> simp [hd, hf] <;> rfl

theorem audioView_createShaderProgram (e : ShaderEnv) (w : World α) :
    (createShaderProgram e w).2.audioView = w.audioView := by
  have h := createShaderProgram_audioReleases e w
  rw [createShaderProgram_snd]
  simp only [World.audioView, audioReleases, List.filterMap_append] at *
  rw [h, List.append_nil]

theorem audioView_loadTexture (e : TextureEnv) (path : String) (w : World α) :
    (loadTexture e path w).2.audioView = w.audioView := by
  have h := loadTexture_audioReleases e path w
  rw [loadTexture_snd]
  simp only [World.audioView, audioReleases, List.filterMap_append] at *
  rw [h, List.append_nil]

theorem createShaderProgram_windowShouldClose (e : ShaderEnv) (w : World α) :
    (createShaderProgram e w).2.windowShouldClose = w.windowShouldClose := by
  rw [createShaderProgram_snd]

theorem loadTexture_windowShouldClose (e : TextureEnv) (path : String) (w : World α) :
    (loadTexture e path w).2.windowShouldClose = w.windowShouldClose := by
  rw [loadTexture_snd]

theorem grows_createShaderProgram (e : ShaderEnv) (w : World α) :
    w.trace <+: (createShaderProgram e w).2.trace := by
  rw [createShaderProgram_trace]
  exact List.prefix_append _ _

theorem grows_loadTexture (e : TextureEnv) (path : String) (w : World α) :
    w.trace <+: (loadTexture e path w).2.trace := by
  rw [loadTexture_snd]
  exact List.prefix_append _ _

end Frames

section AudioLemmas
variable {α : Type}

/-! ### Audio initialisation and shutdown, seen through `audioView` -/

theorem initAudio_audioView (e : Env α) (w : World α) :
    (initAudio e w).audioView =
      if e.SDL_Init < 0 then
        ⟨w.audioView.releases, w.backgroundMusic, w.mixerInitialized, false, w.audioDeviceOpen⟩
      else if (e.Mix_Init &&& e.MIX_INIT_MP3) ≠ e.MIX_INIT_MP3 then
        ⟨w.audioView.releases ++ [.SDL_Quit], w.backgroundMusic, w.mixerInitialized, false,
          w.audioDeviceOpen⟩
      else if e.Mix_OpenAudio < 0 then
        ⟨w.audioView.releases ++ [.Mix_Quit, .SDL_Quit], w.backgroundMusic, w.mixerInitialized,
          false, false⟩
      else if e.Mix_LoadMUS = 0 then
        ⟨w.audioView.releases ++ [.Mix_CloseAudio, .Mix_Quit, .SDL_Quit], 0, false, false, false⟩
      else if e.Mix_PlayMusic = -1 then
        ⟨w.audioView.releases ++ [.Mix_FreeMusic, .Mix_CloseAudio, .Mix_Quit, .SDL_Quit], 0,
          false, false, false⟩
      else
        ⟨w.audioView.releases, e.Mix_LoadMUS, true, true, true⟩ := by
  unfold initAudio
  by_cases h1 : e.SDL_Init < 0
  · simp [h1, World.audioView, World.call, SDL_Init, audioReleases, List.filterMap_append,
      Call.audioRelease]
  · by_cases h2 : (e.Mix_Init &&& e.MIX_INIT_MP3) = e.MIX_INIT_MP3
    · by_cases h3 : e.Mix_OpenAudio < 0
      · simp [h1, h2, h3, World.audioView, World.call, SDL_Init, SDL_Quit, Mix_OpenAudio,
          audioReleases, List.filterMap_append, Call.audioRelease]
      · by_cases h4 : e.Mix_LoadMUS = 0
        · simp [h1, h2, h3, h4, World.audioView, World.call, SDL_Init, SDL_Quit, Mix_OpenAudio,
            Mix_CloseAudio, audioReleases, List.filterMap_append, Call.audioRelease]
        · by_cases h5 : e.Mix_PlayMusic = -1
          · simp [h1, h2, h3, h4, h5, World.audioView, World.call, SDL_Init, SDL_Quit,
              Mix_OpenAudio, Mix_CloseAudio, audioReleases, List.filterMap_append,
              Call.audioRelease]
          · simp [h1, h2, h3, h4, h5, World.audioView, World.call, SDL_Init, SDL_Quit,
              Mix_OpenAudio, Mix_CloseAudio, audioReleases, List.filterMap_append,
              Call.audioRelease]
    · simp [h1, h2, World.audioView, World.call, SDL_Init, SDL_Quit, audioReleases,
        List.filterMap_append, Call.audioRelease]

theorem initAudio_windowShouldClose (e : Env α) (w : World α) :
    (initAudio e w).windowShouldClose = w.windowShouldClose := by
  unfold initAudio
  simp only [SDL_Init, SDL_Quit, Mix_OpenAudio, Mix_CloseAudio, World.call]
  split_ifs <;> rfl

theorem grows_initAudio (e : Env α) (w : World α) :
    w.trace <+: (initAudio e w).trace := by
  unfold initAudio
  simp only [SDL_Init, SDL_Quit, Mix_OpenAudio, Mix_CloseAudio, World.call]
  split_ifs <;> simp [List.append_assoc]

theorem shutdownAudio_audioView (w : World α) :
    (shutdownAudio w).audioView.releases =
      w.audioView.releases
        ++ (if w.backgroundMusic ≠ 0 then [.Mix_FreeMusic] else [])
        ++ (if w.mixerInitialized then [.Mix_CloseAudio, .Mix_Quit] else [])
        ++ (if w.sdlAudioInit then [.SDL_Quit] else []) := by
  unfold shutdownAudio
  by_cases h1 : w.backgroundMusic = 0 <;> by_cases h2 : w.mixerInitialized
    <;> by_cases h3 : w.sdlAudioInit
    <;> simp [h1, h2, h3, World.audioView, World.call, SDL_Quit, Mix_CloseAudio, audioReleases,
      List.filterMap_append, Call.audioRelease]

theorem grows_shutdownAudio (w : World α) :
    w.trace <+: (shutdownAudio w).trace := by
  unfold shutdownAudio
  simp only [SDL_Quit, Mix_CloseAudio, World.call]
  split_ifs <;> simp [List.append_assoc]

end AudioLemmas

section LoopLemmas
variable {α : Type}

theorem audioView_processInput (e : Env α) (f : FrameInput α) (window : Nat) (w : World α) :
    (processInput e f window w).audioView = w.audioView := by
  unfold processInput
  by_cases hk : f.glfwGetKey = e.GLFW_PRESS
    <;> simp [hk, World.audioView, World.call, glfwSetWindowShouldClose, audioReleases,
      List.filterMap_append, Call.audioRelease]

theorem audioView_glfwPollEvents (f : FrameInput α) (w : World α) :
    (glfwPollEvents f w).audioView = w.audioView := by
  unfold glfwPollEvents framebuffer_size_callback
  rcases hr : f.resize with _ | ⟨width, height⟩ <;> by_cases hc : f.closeRequested
    <;> simp [hr, hc, World.audioView, World.call, audioReleases, List.filterMap_append,
      Call.audioRelease]

theorem audioView_glUniformMatrix4fv (location : Int) (value : Mat4 α) (w : World α) :
    (glUniformMatrix4fv location value w).audioView = w.audioView := by
  simp [glUniformMatrix4fv, World.audioView, World.call, audioReleases, List.filterMap_append,
    Call.audioRelease]

theorem audioView_glBufferData (size : Nat) (data : List α) (w : World α) :
    (glBufferData size data w).audioView = w.audioView := by
  simp [glBufferData, World.audioView, World.call, audioReleases, List.filterMap_append,
    Call.audioRelease]

theorem grows_processInput (e : Env α) (f : FrameInput α) (window : Nat) (w : World α) :
    w.trace <+: (processInput e f window w).trace := by
  unfold processInput
  by_cases hk : f.glfwGetKey = e.GLFW_PRESS
    <;> simp [hk, World.call, glfwSetWindowShouldClose, List.append_assoc]

theorem grows_glfwPollEvents (f : FrameInput α) (w : World α) :
    w.trace <+: (glfwPollEvents f w).trace := by
  unfold glfwPollEvents framebuffer_size_callback
  rcases hr : f.resize with _ | ⟨width, height⟩ <;> by_cases hc : f.closeRequested
    <;> simp [hr, hc, World.call, List.append_assoc]

theorem grows_glUniformMatrix4fv (location : Int) (value : Mat4 α) (w : World α) :
    w.trace <+: (glUniformMatrix4fv location value w).trace := by
  simp [glUniformMatrix4fv, World.call]

theorem grows_glBufferData (size : Nat) (data : List α) (w : World α) :
    w.trace <+: (glBufferData size data w).trace := by
  simp [glBufferData, World.call]

theorem processInput_windowShouldClose (e : Env α) (f : FrameInput α) (window : Nat)
    (w : World α) :
    (processInput e f window w).windowShouldClose
      = (w.windowShouldClose || decide (f.glfwGetKey = e.GLFW_PRESS)) := by
  unfold processInput
  by_cases hk : f.glfwGetKey = e.GLFW_PRESS
    <;> simp [hk, World.call, glfwSetWindowShouldClose]

theorem glfwPollEvents_windowShouldClose (f : FrameInput α) (w : World α) :
    (glfwPollEvents f w).windowShouldClose = (w.windowShouldClose || f.closeRequested) := by
  unfold glfwPollEvents framebuffer_size_callback
  rcases hr : f.resize with _ | ⟨width, height⟩ <;> by_cases hc : f.closeRequested
    <;> simp [hr, hc, World.call]

theorem glUniformMatrix4fv_windowShouldClose (location : Int) (value : Mat4 α) (w : World α) :
    (glUniformMatrix4fv location value w).windowShouldClose = w.windowShouldClose := rfl

theorem glBufferData_windowShouldClose (size : Nat) (data : List α) (w : World α) :
    (glBufferData size data w).windowShouldClose = w.windowShouldClose := rfl

variable [Add α] [Sub α] [Mul α] [OfScientific α]

theorem renderFrame_audioView (m : CMath α) (e : Env α) (l : Locals) (f : FrameInput α)
    (w : World α) : (renderFrame m e l f w).audioView = w.audioView := by
  unfold renderFrame
  simp only [audioView_glfwPollEvents, audioView_glUniformMatrix4fv, audioView_processInput,
    audioView_call, Call.audioRelease]

theorem grows_renderFrame (m : CMath α) (e : Env α) (l : Locals) (f : FrameInput α)
    (w : World α) : w.trace <+: (renderFrame m e l f w).trace := by
  unfold renderFrame
  dsimp only
  repeat first
    | exact List.prefix_rfl
    | refine List.IsPrefix.trans ?_ (grows_call _ _)
    | refine List.IsPrefix.trans ?_ (grows_glfwPollEvents _ _)
    | refine List.IsPrefix.trans ?_ (grows_glUniformMatrix4fv _ _ _)
    | exact grows_processInput _ _ _ _

theorem renderFrame_windowShouldClose (m : CMath α) (e : Env α) (l : Locals)
    (f : FrameInput α) (w : World α) :
    (renderFrame m e l f w).windowShouldClose
      = (w.windowShouldClose || decide (f.glfwGetKey = e.GLFW_PRESS) || f.closeRequested) := by
  unfold renderFrame
  simp only [glfwPollEvents_windowShouldClose, glUniformMatrix4fv_windowShouldClose,
    World.call_windowShouldClose, processInput_windowShouldClose]

theorem renderLoop_audioView (m : CMath α) (e : Env α) (l : Locals)
    (frames : List (FrameInput α)) (w : World α) :
    (renderLoop m e l frames w).1.audioView = w.audioView := by
  induction frames generalizing w with
  | nil => simp [renderLoop, audioView_call, Call.audioRelease]
  | cons f frames ih =>
    unfold renderLoop
    by_cases hc : w.windowShouldClose
    · simp [hc, audioView_call, Call.audioRelease]
    · simp [hc, ih, renderFrame_audioView, audioView_call, Call.audioRelease]

theorem grows_renderLoop (m : CMath α) (e : Env α) (l : Locals)
    (frames : List (FrameInput α)) (w : World α) :
    w.trace ++ [Call.glfwWindowShouldClose l.window] <+: (renderLoop m e l frames w).1.trace := by
  induction frames generalizing w with
  | nil => simp [renderLoop]
  | cons f frames ih =>
    unfold renderLoop
    by_cases hc : w.windowShouldClose
    · simp [hc]
    · simp only [World.call_windowShouldClose, hc, Bool.false_eq_true, if_false]
      refine List.IsPrefix.trans ?_ (ih _)
      refine List.IsPrefix.trans ?_ (List.prefix_append _ _)
      exact grows_renderFrame m e l f (w.call (.glfwWindowShouldClose l.window))

/-- Whether the loop is left depends on the close flag, the frames and `GLFW_PRESS` only. -/
theorem renderLoop_left_congr (m : CMath α) (e e' : Env α) (l : Locals)
    (frames : List (FrameInput α)) (w w' : World α) (hp : e.GLFW_PRESS = e'.GLFW_PRESS)
    (hw : w.windowShouldClose = w'.windowShouldClose) :
    (renderLoop m e l frames w).2 = (renderLoop m e' l frames w').2 := by
  induction frames generalizing w w' with
  | nil => simp [renderLoop, hw]
  | cons f frames ih =>
    unfold renderLoop
    by_cases hc : w'.windowShouldClose
    · simp [hc, hw]
    · simp only [World.call_windowShouldClose, hw, hc, Bool.false_eq_true, if_false]
      apply ih
      simp [renderFrame_windowShouldClose, hw, hp]

end LoopLemmas

section ShutdownLemmas
variable {α : Type}

@[simp] theorem World.call_backgroundMusic (w : World α) (c : Call) :
    (w.call c).backgroundMusic = w.backgroundMusic := rfl

@[simp] theorem World.call_mixerInitialized (w : World α) (c : Call) :
    (w.call c).mixerInitialized = w.mixerInitialized := rfl

@[simp] theorem World.call_sdlAudioInit (w : World α) (c : Call) :
    (w.call c).sdlAudioInit = w.sdlAudioInit := rfl

@[simp] theorem World.call_audioDeviceOpen (w : World α) (c : Call) :
    (w.call c).audioDeviceOpen = w.audioDeviceOpen := rfl

theorem grows_shutdown (l : Locals) (w : World α) : w.trace <+: (shutdown l w).trace := by
  unfold shutdown
  refine List.IsPrefix.trans ?_ (grows_call _ _)
  refine List.IsPrefix.trans ?_ (grows_shutdownAudio _)
  simp [List.append_assoc]

theorem shutdown_audioView (l : Locals) (w : World α) :
    (shutdown l w).audioView.releases =
      w.audioView.releases
        ++ (if w.backgroundMusic ≠ 0 then [.Mix_FreeMusic] else [])
        ++ (if w.mixerInitialized then [.Mix_CloseAudio, .Mix_Quit] else [])
        ++ (if w.sdlAudioInit then [.SDL_Quit] else []) := by
  unfold shutdown
  rw [audioView_call _ Call.glfwTerminate rfl, shutdownAudio_audioView]
  simp only [audioView_call, Call.audioRelease, World.call_backgroundMusic,
    World.call_mixerInitialized, World.call_sdlAudioInit]

end ShutdownLemmas

section StartupLemmas
variable {α : Type}

theorem loadTexture_trace (e : TextureEnv) (path : String) (w : World α) :
    (loadTexture e path w).2.trace = w.trace ++ (loadTexture e path w).2.since w := by
  rw [loadTexture_snd]
  simp [World.since]

theorem glBufferData_trace (size : Nat) (data : List α) (w : World α) :
    (glBufferData size data w).trace = w.trace ++ [Call.glBufferData size] := rfl

theorem createShaderProgram_fst_eq_zero (e : ShaderEnv) (w : World α) (h : ¬ e.ok) :
    (createShaderProgram e w).1 = 0 := by
  rw [createShaderProgram_fst]
  unfold ShaderEnv.ok at h
  split_ifs <;> first | rfl | (by_contra hp; exact h ⟨‹_›, ‹_›, ‹_›, hp⟩)

theorem loadTexture_fst_ne_zero_iff (e : TextureEnv) (path : String) (w : World α)
    (hid : e.textureID ≠ 0) :
    (loadTexture e path w).1 ≠ 0
      ↔ (e.data ≠ 0 ∧ (e.nrComponents = 1 ∨ e.nrComponents = 3 ∨ e.nrComponents = 4)) := by
  rw [loadTexture_fst]
  by_cases hd : e.data = 0
  · simp [hd]
  · by_cases h1 : e.nrComponents = 1
    · simp [hd, h1, textureFormat, hid]
    · by_cases h3 : e.nrComponents = 3
      · simp [hd, h3, textureFormat, hid]
      · by_cases h4 : e.nrComponents = 4
        · simp [hd, h4, textureFormat, hid]
        · simp [hd, h1, h3, h4, textureFormat]

theorem createShaderProgram_fst_ne_zero_iff (e : ShaderEnv) (w : World α) :
    (createShaderProgram e w).1 ≠ 0 ↔ e.ok := by
  constructor
  · intro h
    by_contra hok
    exact h (createShaderProgram_fst_eq_zero e w hok)
  · intro hok
    rw [createShaderProgram_fst]
    simp [hok.1, hok.2.1, hok.2.2.1, hok.2.2.2]

theorem loadTexture_fst_eq_zero (e : TextureEnv) (path : String) (w : World α) (h : ¬ e.ok) :
    (loadTexture e path w).1 = 0 := by
  by_cases hid : e.textureID = 0
  · rw [loadTexture_fst]
    split_ifs
    · split <;> simp [hid]
    · rfl
  · by_contra hne
    exact h ⟨((loadTexture_fst_ne_zero_iff e path w hid).1 hne).1,
      ((loadTexture_fst_ne_zero_iff e path w hid).1 hne).2, hid⟩

variable [Add α] [Mul α] [Div α] [IntCast α] [OfScientific α]

theorem startup_ok (m : CMath α) (e : Env α) (h : e.startsUp) :
    ∃ w, startup m e
        = .inr (e.locals, w)
      ∧ w.windowShouldClose = false
      ∧ w.audioView = (initAudio e (beforeAudio e)).audioView
      ∧ Call.gladLoadGLLoader ∈ w.trace
      ∧ Call.glCreateShader .GL_VERTEX_SHADER ∈ w.trace
      ∧ Call.stbi_load "gemoy.png" ∈ w.trace
      ∧ Call.glBufferData (floatsPerVertex * (8 + 2) * sizeof_float) ∈ w.trace := by
  obtain ⟨h0, h1, h2, ⟨hv, hf, hl, hp⟩, ⟨hd, hn, hid⟩⟩ := h
  have hfmt : ∃ format, textureFormat e.texture.nrComponents = some format := by
    rcases hn with h | h | h <;> simp [textureFormat, h]
  obtain ⟨format, hfmt⟩ := hfmt
  have hsh : ∀ w : World α, (createShaderProgram e.shader w).1 = e.shader.shaderProgram := by
    intro w; rw [createShaderProgram_fst]; simp [hv, hf, hl]
  have htx : ∀ w : World α, (loadTexture e.texture "gemoy.png" w).1 = e.texture.textureID := by
    intro w; rw [loadTexture_fst]; simp [hd, hfmt]
  have hb := buildVertices_eq m (0.5 : α) 8 (by decide)
  unfold startup
  dsimp only
  rw [if_neg h0, if_neg h1, if_neg h2, hsh, if_neg hp, htx, if_neg hid, hb]
  dsimp only
  refine ⟨_, rfl, ?_, ?_, ?_, ?_, ?_, ?_⟩
  · simp only [World.call_windowShouldClose, glBufferData_windowShouldClose,
      loadTexture_windowShouldClose, createShaderProgram_windowShouldClose,
      initAudio_windowShouldClose]
    rfl
  · simp only [audioView_call, audioView_glBufferData, audioView_loadTexture,
      audioView_createShaderProgram, Call.audioRelease, beforeAudio]
  · simp [glBufferData_trace, loadTexture_trace, createShaderProgram_trace]
  · simp [glBufferData_trace, loadTexture_trace, createShaderProgram_trace,
      createShaderProgram_since, hv, hf, hl]
  · simp [glBufferData_trace, loadTexture_trace, createShaderProgram_trace,
      loadTexture_since, hd, hfmt]
  · simp [glBufferData_trace, loadTexture_trace, createShaderProgram_trace,
      boundaryFloats_length, boundaryChunk, floatsPerVertex]

/-- Every start-up failure other than an audio failure ends the run with status `-1`;
if GLFW and the window came up, the GL loader was called before. -/
theorem startup_failed (m : CMath α) (e : Env α) (h : ¬ e.startsUp) :
    ∃ w, startup m e = .inl ⟨w, .exited (-1)⟩
      ∧ (e.glfwInit ≠ 0 → e.glfwCreateWindow ≠ 0 → Call.gladLoadGLLoader ∈ w.trace) := by
  unfold startup
  dsimp only
  by_cases h0 : e.glfwInit = 0
  · rw [if_pos h0]
    exact ⟨_, rfl, fun h => absurd h0 h⟩
  rw [if_neg h0]
  by_cases h1 : e.glfwCreateWindow = 0
  · rw [if_pos h1]
    exact ⟨_, rfl, fun _ h => absurd h1 h⟩
  rw [if_neg h1]
  by_cases h2 : e.gladLoadGLLoader = 0
  · rw [if_pos h2]
    exact ⟨_, rfl, fun _ _ => by simp⟩
  rw [if_neg h2]
  by_cases hs : e.shader.ok
  · have ht : ¬ e.texture.ok := fun ht => h ⟨h0, h1, h2, hs, ht⟩
    have hsh : ∀ w : World α, (createShaderProgram e.shader w).1 = e.shader.shaderProgram := by
      intro w; rw [createShaderProgram_fst]; simp [hs.1, hs.2.1, hs.2.2.1]
    rw [hsh, if_neg hs.2.2.2, loadTexture_fst_eq_zero _ _ _ ht, if_pos rfl]
    refine ⟨_, rfl, fun _ _ => ?_⟩
    simp [loadTexture_trace, createShaderProgram_trace]
  · rw [createShaderProgram_fst_eq_zero _ _ hs, if_pos rfl]
    refine ⟨_, rfl, fun _ _ => ?_⟩
    simp [createShaderProgram_trace]

end StartupLemmas

section MainLemmas
variable {α : Type} [Add α] [Sub α] [Mul α] [Div α] [IntCast α] [OfScientific α]

/-- A run whose start-up succeeds: the state at line 243 if the loop is left. -/
theorem untilShutdown_ok (m : CMath α) (e : Env α) (h : e.startsUp) :
    ∃ w, startup m e = .inr (e.locals, w)
      ∧ untilShutdown m e
          = (if (renderLoop m e e.locals e.frames w).2
              then .inr (e.locals, (renderLoop m e e.locals e.frames w).1)
              else .inl ⟨(renderLoop m e e.locals e.frames w).1, .running⟩)
      ∧ w.windowShouldClose = false
      ∧ w.audioView = (initAudio e (beforeAudio e)).audioView
      ∧ Call.gladLoadGLLoader ∈ w.trace
      ∧ Call.glCreateShader .GL_VERTEX_SHADER ∈ w.trace
      ∧ Call.stbi_load "gemoy.png" ∈ w.trace
      ∧ Call.glBufferData (floatsPerVertex * (8 + 2) * sizeof_float) ∈ w.trace := by
  obtain ⟨w, hw, rest⟩ := startup_ok m e h
  refine ⟨w, hw, ?_, rest⟩
  unfold untilShutdown
  rw [hw]

theorem untilShutdown_failed (m : CMath α) (e : Env α) (h : ¬ e.startsUp) :
    ∃ w, untilShutdown m e = .inl ⟨w, .exited (-1)⟩
      ∧ (e.glfwInit ≠ 0 → e.glfwCreateWindow ≠ 0 → Call.gladLoadGLLoader ∈ w.trace) := by
  obtain ⟨w, hw, rest⟩ := startup_failed m e h
  refine ⟨w, ?_, rest⟩
  unfold untilShutdown
  rw [hw]

theorem main_failed (m : CMath α) (e : Env α) (h : ¬ e.startsUp) :
    ∃ w, main m e = ⟨w, .exited (-1)⟩
      ∧ (e.glfwInit ≠ 0 → e.glfwCreateWindow ≠ 0 → Call.gladLoadGLLoader ∈ w.trace) := by
  obtain ⟨w, hw, rest⟩ := untilShutdown_failed m e h
  refine ⟨w, ?_, rest⟩
  unfold main
  rw [hw]

theorem main_ok (m : CMath α) (e : Env α) (h : e.startsUp) :
    ∃ w, untilShutdown m e
          = (if (renderLoop m e e.locals e.frames w).2
              then .inr (e.locals, (renderLoop m e e.locals e.frames w).1)
              else .inl ⟨(renderLoop m e e.locals e.frames w).1, .running⟩)
      ∧ main m e
          = (if (renderLoop m e e.locals e.frames w).2
              then ⟨shutdown e.locals (renderLoop m e e.locals e.frames w).1, .exited 0⟩
              else ⟨(renderLoop m e e.locals e.frames w).1, .running⟩)
      ∧ w.trace ++ [Call.glfwWindowShouldClose e.glfwCreateWindow] <+: (main m e).world.trace
      ∧ w.windowShouldClose = false
      ∧ w.audioView = (initAudio e (beforeAudio e)).audioView
      ∧ Call.gladLoadGLLoader ∈ w.trace
      ∧ Call.glCreateShader .GL_VERTEX_SHADER ∈ w.trace
      ∧ Call.stbi_load "gemoy.png" ∈ w.trace
      ∧ Call.glBufferData (floatsPerVertex * (8 + 2) * sizeof_float) ∈ w.trace := by
  obtain ⟨w, _, hu, rest⟩ := untilShutdown_ok m e h
  have hm : main m e
      = (if (renderLoop m e e.locals e.frames w).2
          then ⟨shutdown e.locals (renderLoop m e e.locals e.frames w).1, .exited 0⟩
          else ⟨(renderLoop m e e.locals e.frames w).1, .running⟩) := by
    unfold main
    rw [hu]
    split_ifs <;> rfl
  refine ⟨w, hu, hm, ?_, rest⟩
  rw [hm]
  have hp := grows_renderLoop m e e.locals e.frames w
  split_ifs
  · exact List.IsPrefix.trans hp (grows_shutdown _ _)
  · exact hp

end MainLemmas

section ReleaseLemmas
variable {α : Type}

theorem beforeAudio_audioView (e : Env α) :
    (beforeAudio e).audioView = ⟨[], 0, false, false, false⟩ := rfl

/-- The audio part of the state after the audio initialisation of `main`. -/
theorem afterAudio_audioView (e : Env α) :
    (initAudio e (beforeAudio e)).audioView =
      if e.SDL_Init < 0 then ⟨[], 0, false, false, false⟩
      else if (e.Mix_Init &&& e.MIX_INIT_MP3) ≠ e.MIX_INIT_MP3 then
        ⟨[.SDL_Quit], 0, false, false, false⟩
      else if e.Mix_OpenAudio < 0 then ⟨[.Mix_Quit, .SDL_Quit], 0, false, false, false⟩
      else if e.Mix_LoadMUS = 0 then
        ⟨[.Mix_CloseAudio, .Mix_Quit, .SDL_Quit], 0, false, false, false⟩
      else if e.Mix_PlayMusic = -1 then
        ⟨[.Mix_FreeMusic, .Mix_CloseAudio, .Mix_Quit, .SDL_Quit], 0, false, false, false⟩
      else ⟨[], e.Mix_LoadMUS, true, true, true⟩ := by
  rw [initAudio_audioView, beforeAudio_audioView]
  rfl

/-- The release operations of a run that reaches line 243 in a state whose audio part is
the one left by the audio initialisation. -/
theorem shutdown_releases (e : Env α) (l : Locals) (w : World α)
    (hw : w.audioView = (initAudio e (beforeAudio e)).audioView) :
    audioReleases (shutdown l w).trace =
      if e.SDL_Init < 0 then []
      else if (e.Mix_Init &&& e.MIX_INIT_MP3) ≠ e.MIX_INIT_MP3 then [.SDL_Quit]
      else if e.Mix_OpenAudio < 0 then [.Mix_Quit, .SDL_Quit]
      else if e.Mix_LoadMUS = 0 then [.Mix_CloseAudio, .Mix_Quit, .SDL_Quit]
      else [.Mix_FreeMusic, .Mix_CloseAudio, .Mix_Quit, .SDL_Quit] := by
  have h := shutdown_audioView l w
  rw [afterAudio_audioView] at hw
  have h1 : w.audioView.releases = _ := congrArg AudioView.releases hw
  have h2 : w.backgroundMusic = _ := congrArg AudioView.backgroundMusic hw
  have h3 : w.mixerInitialized = _ := congrArg AudioView.mixerInitialized hw
  have h4 : w.sdlAudioInit = _ := congrArg AudioView.sdlAudioInit hw
  change (shutdown l w).audioView.releases = _
  rw [h, h1, h2, h3, h4]
  split_ifs <;> simp_all

theorem atShutdown_flag (e : Env α) (w : World α)
    (hw : w.audioView = (initAudio e (beforeAudio e)).audioView) :
    w.mixerInitialized = w.audioDeviceOpen := by
  rw [afterAudio_audioView] at hw
  have h3 : w.mixerInitialized = _ := congrArg AudioView.mixerInitialized hw
  have h5 : w.audioDeviceOpen = _ := congrArg AudioView.audioDeviceOpen hw
  rw [h3, h5]
  split_ifs <;> rfl

end ReleaseLemmas

/-! ## The claims -/

/-- C1: for every `sides ≥ 3` and every `radius` (in particular every `radius > 0`), the
mesh code of lines 174-195 returns a buffer of `4 * (sides + 2)` floats, that is `sides + 2`
vertices of 4 floats; vertex 0 is `(0, 0, 0.5, 0.5)`; the last vertex, vertex `sides + 1`,
is equal to vertex 1 in all four components; and the count `numSides + 2` passed to
`glDrawArrays` is the number of vertices in the buffer.  The statement holds for every
number type `α`, the reals included. -/
theorem mesh_shape {α : Type} [Add α] [Mul α] [Div α] [IntCast α] [OfScientific α]
    (m : CMath α) (radius : α) (sides : Int) (h : 3 ≤ sides) :
    ∃ vertices, buildVertices m radius sides = some vertices
      ∧ vertices.length = floatsPerVertex * (sides.toNat + 2)
      ∧ vertexAt vertices 0 = some (0.0, 0.0, 0.5, 0.5)
      ∧ (∃ v, vertexAt vertices 1 = some v ∧ vertexAt vertices (sides.toNat + 1) = some v)
      ∧ drawCount sides = ((vertices.length / floatsPerVertex : Nat) : Int) := by
  refine ⟨_, buildVertices_eq m radius sides (by omega), ?_, ?_, ?_, ?_⟩
  · simp [boundaryFloats_length, boundaryChunk, floatsPerVertex]; omega
  · simp [vertexAt, floatsPerVertex]
  · refine ⟨_, vertexAt_boundary m radius sides 0 (by omega) _ _ _ _ _, ?_⟩
    simp only [boundaryChunk]
    exact vertexAt_last m radius sides _ _ _ _ _ _ _ _
  · have hl : ([0.0, 0.0, 0.5, 0.5] ++ boundaryFloats m radius sides sides.toNat
        ++ boundaryChunk m radius sides 0).length = 4 * (sides.toNat + 2) := by
      simp [boundaryFloats_length, boundaryChunk]; omega
    rw [hl]
    simp [drawCount, floatsPerVertex]
    omega

/-- The octagon of `main`: `sides = 8`, `radius = 0.5`, over the reals. -/
theorem mesh_shape_witness :
    3 ≤ (8 : Int) ∧
    ∃ vertices, buildVertices (⟨Real.cos, Real.sin, fun x => 1 / Real.sqrt x, Real.pi⟩ : CMath ℝ)
        0.5 8 = some vertices
      ∧ vertices.length = floatsPerVertex * ((8 : Int).toNat + 2)
      ∧ vertexAt vertices 0 = some (0.0, 0.0, 0.5, 0.5)
      ∧ (∃ v, vertexAt vertices 1 = some v ∧ vertexAt vertices ((8 : Int).toNat + 1) = some v)
      ∧ drawCount 8 = ((vertices.length / floatsPerVertex : Nat) : Int) :=
  ⟨by decide, mesh_shape _ _ 8 (by decide)⟩

/-- C2: over the reals, for `sides ≥ 3`, `radius > 0` and `0 ≤ i < sides`, vertex `i + 1`
of the mesh is `(radius * cos a, radius * sin a, 0.5 + 0.5 * cos a, 0.5 + 0.5 * sin a)` with
`a = i * 2 * π / sides`; and for `sides = 8`, `radius = 0.5` the mesh has 10 vertices and
vertex 1 is position `(0.5, 0.0)`, texture coordinate `(1.0, 0.5)`. -/
theorem boundary_vertex_formula :
    (∀ (sides : Int) (radius : ℝ) (i : Nat), 3 ≤ sides → 0 < radius → (i : Int) < sides →
      ∃ vertices,
        buildVertices (⟨Real.cos, Real.sin, fun x => 1 / Real.sqrt x, Real.pi⟩ : CMath ℝ)
          radius sides = some vertices
        ∧ vertexAt vertices (i + 1)
          = some (radius * Real.cos (i * 2 * Real.pi / sides),
                  radius * Real.sin (i * 2 * Real.pi / sides),
                  0.5 + 0.5 * Real.cos (i * 2 * Real.pi / sides),
                  0.5 + 0.5 * Real.sin (i * 2 * Real.pi / sides)))
    ∧ (∃ vertices,
        buildVertices (⟨Real.cos, Real.sin, fun x => 1 / Real.sqrt x, Real.pi⟩ : CMath ℝ)
          0.5 8 = some vertices
        ∧ vertices.length = floatsPerVertex * 10
        ∧ vertexAt vertices 1 = some (0.5, 0.0, 1.0, 0.5)) := by
  constructor
  · intro sides radius i h3 _ hi
    refine ⟨_, buildVertices_eq _ radius sides (by omega), ?_⟩
    rw [vertexAt_boundary _ radius sides i (by omega)]
    have ha : (((i : Int) : ℝ)) * ((2.0 : ℝ) * Real.pi / (sides : ℝ))
        = (i : ℝ) * 2 * Real.pi / (sides : ℝ) := by
      push_cast
      norm_num
      ring
    simp only [ha]
  · refine ⟨_, buildVertices_eq _ 0.5 8 (by decide), ?_, ?_⟩
    · simp [boundaryFloats_length, boundaryChunk, floatsPerVertex]
    · rw [vertexAt_boundary _ (0.5 : ℝ) 8 0 (by decide)]
      norm_num

/-- The second corner (`i = 1`) of a square of radius 1. -/
theorem boundary_vertex_formula_witness :
    ∃ vertices,
      buildVertices (⟨Real.cos, Real.sin, fun x => 1 / Real.sqrt x, Real.pi⟩ : CMath ℝ)
        1 4 = some vertices
      ∧ vertexAt vertices (1 + 1)
        = some ((1 : ℝ) * Real.cos ((1 : Nat) * 2 * Real.pi / (4 : Int)),
                1 * Real.sin ((1 : Nat) * 2 * Real.pi / (4 : Int)),
                0.5 + 0.5 * Real.cos ((1 : Nat) * 2 * Real.pi / (4 : Int)),
                0.5 + 0.5 * Real.sin ((1 : Nat) * 2 * Real.pi / (4 : Int))) :=
  boundary_vertex_formula.1 4 1 1 (by decide) (by norm_num) (by decide)

/-- C3: over the reals, for `sides ≥ 3`, `radius > 0` and `0 ≤ i < sides`, the boundary
vertex `i + 1 = (x, y, u, v)` of the mesh satisfies `u = 0.5 + 0.5 * x / radius` and
`v = 0.5 + 0.5 * y / radius`, whatever the functions `cos` and `sin` are. -/
theorem texcoord_of_position (m : CMath ℝ) (sides : Int) (radius : ℝ) (i : Nat)
    (h3 : 3 ≤ sides) (hr : 0 < radius) (hi : (i : Int) < sides) :
    ∃ vertices x y u v, buildVertices m radius sides = some vertices
      ∧ vertexAt vertices (i + 1) = some (x, y, u, v)
      ∧ u = 0.5 + 0.5 * x / radius
      ∧ v = 0.5 + 0.5 * y / radius := by
  refine ⟨_, _, _, _, _, buildVertices_eq m radius sides (by omega),
    vertexAt_boundary m radius sides i (by omega) _ _ _ _ _, ?_, ?_⟩
  · field_simp
    ring
  · field_simp
    ring

/-- The fourth corner (`i = 3`) of the octagon of `main`. -/
theorem texcoord_of_position_witness :
    ∃ vertices x y u v,
      buildVertices (⟨Real.cos, Real.sin, fun x => 1 / Real.sqrt x, Real.pi⟩ : CMath ℝ) 0.5 8
        = some vertices
      ∧ vertexAt vertices (3 + 1) = some (x, y, u, v)
      ∧ u = 0.5 + 0.5 * x / 0.5
      ∧ v = 0.5 + 0.5 * y / 0.5 :=
  texcoord_of_position _ 8 0.5 3 (by decide) (by norm_num) (by decide)

/-- C4: over the reals, the per-frame transform (the identity matrix rotated about the Z
axis by the elapsed time `t`) is the identity matrix at `t = 0`, and the transform at
`t + 2 * π` equals the transform at `t` for every `t`. -/
theorem transform_zero_and_period :
    transform (⟨Real.cos, Real.sin, fun x => 1 / Real.sqrt x, Real.pi⟩ : CMath ℝ) 0
        = ⟨⟨1, 0, 0, 0⟩, ⟨0, 1, 0, 0⟩, ⟨0, 0, 1, 0⟩, ⟨0, 0, 0, 1⟩⟩
    ∧ ∀ t : ℝ,
        transform (⟨Real.cos, Real.sin, fun x => 1 / Real.sqrt x, Real.pi⟩ : CMath ℝ)
            (t + 2 * Real.pi)
          = transform (⟨Real.cos, Real.sin, fun x => 1 / Real.sqrt x, Real.pi⟩ : CMath ℝ) t := by
  constructor
  · rw [transform_real]; simp
  · intro t
    rw [transform_real, transform_real, Real.cos_add_two_pi, Real.sin_add_two_pi]

/-- C5: in `loadTexture`, when decoding succeeds a channel count of 1, 3, 4 uploads with
format `GL_RED`, `GL_RGB`, `GL_RGBA` respectively (and no other upload is made) and the
generated texture id is returned; for every other channel count the function returns 0,
uploads nothing, deletes the generated texture id and frees the decoded buffer; on every
path `stbi_image_free` is called exactly once, on the pointer `stbi_load` returned.  The
calls of the function are appended to the trace. -/
theorem loadTexture_formats {α : Type} (e : TextureEnv) (path : String) (w : World α) :
    (∀ format, e.data ≠ 0 →
        (e.nrComponents = 1 ∧ format = GLenum.GL_RED ∨ e.nrComponents = 3 ∧ format = GLenum.GL_RGB
          ∨ e.nrComponents = 4 ∧ format = GLenum.GL_RGBA) →
        (loadTexture e path w).1 = e.textureID
        ∧ Call.glTexImage2D format e.width e.height format e.data ∈ (loadTexture e path w).2.since w
        ∧ ∀ c ∈ (loadTexture e path w).2.since w, c.is_glTexImage2D = true →
            c = Call.glTexImage2D format e.width e.height format e.data)
    ∧ (e.data ≠ 0 → e.nrComponents ≠ 1 → e.nrComponents ≠ 3 → e.nrComponents ≠ 4 →
        (loadTexture e path w).1 = 0
        ∧ (∀ c ∈ (loadTexture e path w).2.since w, c.is_glTexImage2D = false)
        ∧ Call.glDeleteTextures e.textureID ∈ (loadTexture e path w).2.since w
        ∧ Call.stbi_image_free e.data ∈ (loadTexture e path w).2.since w)
    ∧ ((loadTexture e path w).2.since w).countP Call.is_stbi_image_free = 1
    ∧ (∀ c ∈ (loadTexture e path w).2.since w, c.is_stbi_image_free = true →
        c = Call.stbi_image_free e.data)
    ∧ (loadTexture e path w).2.trace = w.trace ++ (loadTexture e path w).2.since w := by
  rw [loadTexture_since, loadTexture_fst]
  refine ⟨?_, ?_, ?_, ?_, ?_⟩
  · intro format hd hf
    have hfmt : textureFormat e.nrComponents = some format := by
      rcases hf with ⟨h, rfl⟩ | ⟨h, rfl⟩ | ⟨h, rfl⟩ <;> simp [textureFormat, h]
    simp [hd, hfmt, Call.is_glTexImage2D]
  · intro hd h1 h3 h4
    have hfmt : textureFormat e.nrComponents = none := by
      simp [textureFormat, h1, h3, h4]
    simp [hd, hfmt, Call.is_glTexImage2D]
  · by_cases hd : e.data = 0
    · simp [hd, Call.is_stbi_image_free]
    · cases hf : textureFormat e.nrComponents <;> simp [hd, hf, Call.is_stbi_image_free]
  · by_cases hd : e.data = 0
    · simp [hd, Call.is_stbi_image_free]
    · cases hf : textureFormat e.nrComponents <;> simp [hd, hf, Call.is_stbi_image_free]
  · unfold loadTexture
    by_cases hd : e.data = 0
    · simp [hd]
    · cases hf : textureFormat e.nrComponents <;> simp [hd, hf]

/-- A four-channel image is loaded; a two-channel image is refused. -/
theorem loadTexture_formats_witness :
    (loadTexture ⟨7, 300, 64, 64, 4⟩ "gemoy.png" (World.start : World ℝ)).1 = 7
    ∧ (loadTexture ⟨7, 300, 64, 64, 2⟩ "gemoy.png" (World.start : World ℝ)).1 = 0 :=
  ⟨((loadTexture_formats ⟨7, 300, 64, 64, 4⟩ "gemoy.png" World.start).1 GLenum.GL_RGBA
      (by decide) (by decide)).1,
   ((loadTexture_formats ⟨7, 300, 64, 64, 2⟩ "gemoy.png" World.start).2.1
      (by decide) (by decide) (by decide) (by decide)).1⟩

/-- C6: in `createShaderProgram`, if the vertex stage fails to compile the function
returns 0 without creating or linking a program and without creating or compiling a
fragment shader; if the vertex stage compiles and the fragment stage fails, it returns 0
without creating or linking a program and deletes the vertex shader object; if both
stages compile and linking succeeds, the program is linked, both shader objects are
deleted and the program handle is returned.  The calls of the function are appended to
the trace. -/
theorem createShaderProgram_stages {α : Type} (e : ShaderEnv) (w : World α) :
    (e.vertexCompileStatus = 0 →
        (createShaderProgram e w).1 = 0
        ∧ Call.glCreateProgram ∉ (createShaderProgram e w).2.since w
        ∧ (∀ program, Call.glLinkProgram program ∉ (createShaderProgram e w).2.since w)
        ∧ Call.glCreateShader GLenum.GL_FRAGMENT_SHADER ∉ (createShaderProgram e w).2.since w
        ∧ (∀ shader, Call.glCompileShader shader ∈ (createShaderProgram e w).2.since w →
            shader = e.vertexShader))
    ∧ (e.vertexCompileStatus ≠ 0 → e.fragmentCompileStatus = 0 →
        (createShaderProgram e w).1 = 0
        ∧ Call.glCreateProgram ∉ (createShaderProgram e w).2.since w
        ∧ (∀ program, Call.glLinkProgram program ∉ (createShaderProgram e w).2.since w)
        ∧ Call.glDeleteShader e.vertexShader ∈ (createShaderProgram e w).2.since w)
    ∧ (e.vertexCompileStatus ≠ 0 → e.fragmentCompileStatus ≠ 0 → e.linkStatus ≠ 0 →
        (createShaderProgram e w).1 = e.shaderProgram
        ∧ Call.glLinkProgram e.shaderProgram ∈ (createShaderProgram e w).2.since w
        ∧ Call.glDeleteShader e.vertexShader ∈ (createShaderProgram e w).2.since w
        ∧ Call.glDeleteShader e.fragmentShader ∈ (createShaderProgram e w).2.since w)
    ∧ (createShaderProgram e w).2.trace = w.trace ++ (createShaderProgram e w).2.since w := by
  refine ⟨?_, ?_, ?_, createShaderProgram_trace e w⟩
  · intro hv
    rw [createShaderProgram_since, createShaderProgram_fst]
    simp [hv]
  · intro hv hf
    rw [createShaderProgram_since, createShaderProgram_fst]
    simp [hv, hf]
  · intro hv hf hl
    rw [createShaderProgram_since, createShaderProgram_fst]
    simp [hv, hf, hl]

/-- One run for each of the three cases: vertex stage fails, fragment stage fails, both
stages compile and link. -/
theorem createShaderProgram_stages_witness :
    (createShaderProgram ⟨1, 0, 2, 1, 3, 1⟩ (World.start : World ℝ)).1 = 0
    ∧ Call.glDeleteShader 1 ∈
        (createShaderProgram ⟨1, 1, 2, 0, 3, 1⟩ (World.start : World ℝ)).2.since World.start
    ∧ (createShaderProgram ⟨1, 1, 2, 1, 3, 1⟩ (World.start : World ℝ)).1 = 3 :=
  ⟨((createShaderProgram_stages ⟨1, 0, 2, 1, 3, 1⟩ World.start).1 (by decide)).1,
   ((createShaderProgram_stages ⟨1, 1, 2, 0, 3, 1⟩ World.start).2.1 (by decide) (by decide)).2.2.2,
   ((createShaderProgram_stages ⟨1, 1, 2, 1, 3, 1⟩ World.start).2.2.1
      (by decide) (by decide) (by decide)).1⟩

/-- C7 fails on the code.  First run: every call succeeds except `gladLoadGLLoader`.
`main` returns `-1` having called neither `glfwTerminate` nor any audio release operation:
the window exists, the audio device is open and the music is loaded when it returns.
Second run: every call succeeds except the decoding of the texture.  `main` returns `-1`
after `glDeleteProgram` and `glfwTerminate`, again without any audio release operation. -/
theorem init_failure_keeps_resources :
    (main (⟨Real.cos, Real.sin, fun x => 1 / Real.sqrt x, Real.pi⟩ : CMath ℝ)
        gladFailure).status = Status.exited (-1)
    ∧ (main (⟨Real.cos, Real.sin, fun x => 1 / Real.sqrt x, Real.pi⟩ : CMath ℝ)
        gladFailure).world.trace.countP Call.is_glfwTerminate = 0
    ∧ audioReleases (main (⟨Real.cos, Real.sin, fun x => 1 / Real.sqrt x, Real.pi⟩ : CMath ℝ)
        gladFailure).world.trace = []
    ∧ (main (⟨Real.cos, Real.sin, fun x => 1 / Real.sqrt x, Real.pi⟩ : CMath ℝ)
        gladFailure).world.audioDeviceOpen = true
    ∧ (main (⟨Real.cos, Real.sin, fun x => 1 / Real.sqrt x, Real.pi⟩ : CMath ℝ)
        gladFailure).world.sdlAudioInit = true
    ∧ (main (⟨Real.cos, Real.sin, fun x => 1 / Real.sqrt x, Real.pi⟩ : CMath ℝ)
        gladFailure).world.backgroundMusic = 200
    ∧ (main (⟨Real.cos, Real.sin, fun x => 1 / Real.sqrt x, Real.pi⟩ : CMath ℝ)
        textureFailure).status = Status.exited (-1)
    ∧ (main (⟨Real.cos, Real.sin, fun x => 1 / Real.sqrt x, Real.pi⟩ : CMath ℝ)
        textureFailure).world.trace.countP Call.is_glfwTerminate = 1
    ∧ (main (⟨Real.cos, Real.sin, fun x => 1 / Real.sqrt x, Real.pi⟩ : CMath ℝ)
        textureFailure).world.trace.countP Call.is_glDeleteProgram = 1
    ∧ audioReleases (main (⟨Real.cos, Real.sin, fun x => 1 / Real.sqrt x, Real.pi⟩ : CMath ℝ)
        textureFailure).world.trace = []
    ∧ (main (⟨Real.cos, Real.sin, fun x => 1 / Real.sqrt x, Real.pi⟩ : CMath ℝ)
        textureFailure).world.audioDeviceOpen = true
    ∧ (main (⟨Real.cos, Real.sin, fun x => 1 / Real.sqrt x, Real.pi⟩ : CMath ℝ)
        textureFailure).world.backgroundMusic = 200 := by
  refine ⟨?_, ?_, ?_, ?_, ?_, ?_, ?_, ?_, ?_, ?_, ?_, ?_⟩ <;> decide

/-- C8: audio failures are never fatal.  Replacing the results of the five audio calls
(`SDL_Init`, `Mix_Init`, `Mix_OpenAudio`, `Mix_LoadMUS`, `Mix_PlayMusic`) by any other
results leaves the exit status of `main` unchanged; whatever the audio results, once GLFW
and the window are up `main` goes on to load the GL functions; and when the GL loader,
the shader program and the texture succeed as well, it builds the shader, loads the
texture, uploads the mesh, enters the render loop, and the status is 0 if the loop is
left (and "still running" if the supplied frames end before the window is closed). -/
theorem audio_failures_not_fatal {α : Type} [Add α] [Sub α] [Mul α] [Div α] [IntCast α]
    [OfScientific α] (m : CMath α) (e : Env α) (sdlInit : Int) (mixInit : Nat)
    (openAudio : Int) (loadMUS : Nat) (playMusic : Int) :
    (main m (e.withAudio sdlInit mixInit openAudio loadMUS playMusic)).status = (main m e).status
    ∧ (e.glfwInit ≠ 0 → e.glfwCreateWindow ≠ 0 → Call.gladLoadGLLoader ∈ (main m e).world.trace)
    ∧ (e.startsUp →
        Call.gladLoadGLLoader ∈ (main m e).world.trace
        ∧ Call.glCreateShader GLenum.GL_VERTEX_SHADER ∈ (main m e).world.trace
        ∧ Call.stbi_load "gemoy.png" ∈ (main m e).world.trace
        ∧ Call.glBufferData (floatsPerVertex * (8 + 2) * sizeof_float) ∈ (main m e).world.trace
        ∧ Call.glfwWindowShouldClose e.glfwCreateWindow ∈ (main m e).world.trace
        ∧ ((main m e).status = Status.exited 0 ∨ (main m e).status = Status.running)) := by
  have hpart : e.startsUp →
      Call.gladLoadGLLoader ∈ (main m e).world.trace
      ∧ Call.glCreateShader GLenum.GL_VERTEX_SHADER ∈ (main m e).world.trace
      ∧ Call.stbi_load "gemoy.png" ∈ (main m e).world.trace
      ∧ Call.glBufferData (floatsPerVertex * (8 + 2) * sizeof_float) ∈ (main m e).world.trace
      ∧ Call.glfwWindowShouldClose e.glfwCreateWindow ∈ (main m e).world.trace
      ∧ ((main m e).status = Status.exited 0 ∨ (main m e).status = Status.running) := by
    intro h
    obtain ⟨w, _, hm, hp, _, _, g1, g2, g3, g4⟩ := main_ok m e h
    have sub : ∀ c, c ∈ w.trace → c ∈ (main m e).world.trace := fun c hc =>
      hp.subset (List.mem_append_left _ hc)
    refine ⟨sub _ g1, sub _ g2, sub _ g3, sub _ g4, hp.subset (by simp), ?_⟩
    rw [hm]
    split_ifs
    · exact Or.inl rfl
    · exact Or.inr rfl
  refine ⟨?_, ?_, hpart⟩
  · by_cases h : e.startsUp
    · have h' : (e.withAudio sdlInit mixInit openAudio loadMUS playMusic).startsUp := h
      obtain ⟨v, _, hm, _, hc, _⟩ := main_ok m e h
      obtain ⟨v', _, hm', _, hc', _⟩ := main_ok m _ h'
      have hflag := renderLoop_left_congr m
        (e.withAudio sdlInit mixInit openAudio loadMUS playMusic) e e.locals e.frames v' v rfl
        (by rw [hc, hc'])
      rw [hm, hm']
      have hl : (e.withAudio sdlInit mixInit openAudio loadMUS playMusic).locals = e.locals := rfl
      have hf : (e.withAudio sdlInit mixInit openAudio loadMUS playMusic).frames = e.frames := rfl
      rw [hl, hf, hflag]
      split_ifs <;> rfl
    · have h' : ¬ (e.withAudio sdlInit mixInit openAudio loadMUS playMusic).startsUp := h
      obtain ⟨w, hm, _⟩ := main_failed m e h
      obtain ⟨w', hm', _⟩ := main_failed m _ h'
      rw [hm, hm']
  · intro h0 h1
    by_cases h : e.startsUp
    · exact (hpart h).1
    · obtain ⟨w, hm, hg⟩ := main_failed m e h
      rw [hm]
      exact hg h0 h1

/-- With every audio call failing the status is that of the run with audio working; the
GL loader is reached in a run where it then fails; the render loop is reached in the run
`escapeRun`. -/
theorem audio_failures_not_fatal_witness :
    (main (⟨Real.cos, Real.sin, fun x => 1 / Real.sqrt x, Real.pi⟩ : CMath ℝ)
        (escapeRun.withAudio (-1) 0 (-1) 0 (-1))).status
      = (main (⟨Real.cos, Real.sin, fun x => 1 / Real.sqrt x, Real.pi⟩ : CMath ℝ)
          escapeRun).status
    ∧ Call.gladLoadGLLoader ∈
        (main (⟨Real.cos, Real.sin, fun x => 1 / Real.sqrt x, Real.pi⟩ : CMath ℝ)
          gladFailure).world.trace
    ∧ Call.glfwWindowShouldClose escapeRun.glfwCreateWindow ∈
        (main (⟨Real.cos, Real.sin, fun x => 1 / Real.sqrt x, Real.pi⟩ : CMath ℝ)
          escapeRun).world.trace :=
  ⟨(audio_failures_not_fatal _ escapeRun (-1) 0 (-1) 0 (-1)).1,
   (audio_failures_not_fatal _ gladFailure 0 0 0 0 0).2.1 (by decide) (by decide),
   ((audio_failures_not_fatal _ escapeRun 0 0 0 0 0).2.2
      ⟨by decide, by decide, by decide, ⟨by decide, by decide, by decide, by decide⟩,
        ⟨by decide, by decide, by decide⟩⟩).2.2.2.2.1⟩

/-- C9 as stated fails: with a non-zero texture id and a successfully decoded image of
two channels, `loadTexture` returns 0. -/
theorem loadTexture_nonzero_iff_decoded_fails :
    (⟨1, 300, 64, 64, 2⟩ : TextureEnv).textureID ≠ 0
    ∧ ¬ ((loadTexture ⟨1, 300, 64, 64, 2⟩ "gemoy.png" (World.start : World ℝ)).1 ≠ 0
          ↔ (⟨1, 300, 64, 64, 2⟩ : TextureEnv).data ≠ 0) := by
  decide

/-- C9, amended: assuming `glGenTextures` yields a non-zero id, the handle returned by
`loadTexture` is non-zero if and only if decoding succeeded and the channel count is 1, 3
or 4. -/
theorem loadTexture_nonzero_iff {α : Type} (e : TextureEnv) (path : String) (w : World α)
    (hid : e.textureID ≠ 0) :
    (loadTexture e path w).1 ≠ 0
      ↔ (e.data ≠ 0 ∧ (e.nrComponents = 1 ∨ e.nrComponents = 3 ∨ e.nrComponents = 4)) :=
  loadTexture_fst_ne_zero_iff e path w hid

/-- A decoded three-channel image gives a non-zero handle. -/
theorem loadTexture_nonzero_iff_witness :
    (⟨1, 300, 64, 64, 3⟩ : TextureEnv).textureID ≠ 0
    ∧ ((loadTexture ⟨1, 300, 64, 64, 3⟩ "gemoy.png" (World.start : World ℝ)).1 ≠ 0
        ↔ ((⟨1, 300, 64, 64, 3⟩ : TextureEnv).data ≠ 0
            ∧ ((⟨1, 300, 64, 64, 3⟩ : TextureEnv).nrComponents = 1
              ∨ (⟨1, 300, 64, 64, 3⟩ : TextureEnv).nrComponents = 3
              ∨ (⟨1, 300, 64, 64, 3⟩ : TextureEnv).nrComponents = 4))) :=
  ⟨by decide, loadTexture_nonzero_iff _ "gemoy.png" World.start (by decide)⟩

/-- C10: on every run of `main` that reaches normal shutdown (exit status 0), whatever the
results of the audio calls, each audio release operation occurs at most once in the whole
trace, and exactly once precisely when its acquisition succeeded: `Mix_FreeMusic` iff
`Mix_LoadMUS` succeeded, `Mix_CloseAudio` iff `Mix_OpenAudio` succeeded, `Mix_Quit` iff
`Mix_Init` succeeded, `SDL_Quit` iff `SDL_Init` succeeded; and in the state in which
line 243 is reached the flag `mixerInitialized` is true exactly when the audio device is
open. -/
theorem audio_released_once {α : Type} [Add α] [Sub α] [Mul α] [Div α] [IntCast α]
    [OfScientific α] (m : CMath α) (e : Env α) (h : (main m e).status = Status.exited 0) :
    (audioReleases (main m e).world.trace).count AudioRelease.Mix_FreeMusic ≤ 1
    ∧ ((audioReleases (main m e).world.trace).count AudioRelease.Mix_FreeMusic = 1
        ↔ e.Mix_LoadMUS_ok)
    ∧ (audioReleases (main m e).world.trace).count AudioRelease.Mix_CloseAudio ≤ 1
    ∧ ((audioReleases (main m e).world.trace).count AudioRelease.Mix_CloseAudio = 1
        ↔ e.Mix_OpenAudio_ok)
    ∧ (audioReleases (main m e).world.trace).count AudioRelease.Mix_Quit ≤ 1
    ∧ ((audioReleases (main m e).world.trace).count AudioRelease.Mix_Quit = 1
        ↔ e.Mix_Init_ok)
    ∧ (audioReleases (main m e).world.trace).count AudioRelease.SDL_Quit ≤ 1
    ∧ ((audioReleases (main m e).world.trace).count AudioRelease.SDL_Quit = 1
        ↔ e.SDL_Init_ok)
    ∧ ∃ l w, untilShutdown m e = Sum.inr (l, w)
        ∧ (main m e).world = shutdown l w
        ∧ (w.mixerInitialized = true ↔ w.audioDeviceOpen = true) := by
  by_cases hs : e.startsUp
  · obtain ⟨w, hu, hm, _, _, hv, _⟩ := main_ok m e hs
    by_cases hleft : (renderLoop m e e.locals e.frames w).2 = true
    · rw [if_pos hleft] at hu hm
      have hview : (renderLoop m e e.locals e.frames w).1.audioView
          = (initAudio e (beforeAudio e)).audioView := by
        rw [renderLoop_audioView, hv]
      have hflag := atShutdown_flag e _ hview
      have hrel := shutdown_releases e e.locals _ hview
      have hex : ∃ l w', untilShutdown m e = Sum.inr (l, w')
          ∧ (main m e).world = shutdown l w'
          ∧ (w'.mixerInitialized = true ↔ w'.audioDeviceOpen = true) :=
        ⟨e.locals, (renderLoop m e e.locals e.frames w).1, hu, by rw [hm], by rw [hflag]⟩
      refine ⟨?_, ?_, ?_, ?_, ?_, ?_, ?_, ?_, hex⟩ <;> rw [hm] <;>
        simp only [hrel, Env.Mix_LoadMUS_ok, Env.Mix_OpenAudio_ok, Env.Mix_Init_ok,
          Env.SDL_Init_ok] <;> split_ifs <;> simp_all
    · rw [if_neg hleft] at hm
      rw [hm] at h
      cases h
  · obtain ⟨w, hm, _⟩ := main_failed m e hs
    rw [hm] at h
    cases h

/-- The run `escapeRun` reaches normal shutdown and frees the music exactly once. -/
theorem audio_released_once_witness :
    (main (⟨Real.cos, Real.sin, fun x => 1 / Real.sqrt x, Real.pi⟩ : CMath ℝ)
        escapeRun).status = Status.exited 0
    ∧ (audioReleases (main (⟨Real.cos, Real.sin, fun x => 1 / Real.sqrt x, Real.pi⟩ : CMath ℝ)
        escapeRun).world.trace).count AudioRelease.Mix_FreeMusic ≤ 1
    ∧ ((audioReleases (main (⟨Real.cos, Real.sin, fun x => 1 / Real.sqrt x, Real.pi⟩ : CMath ℝ)
        escapeRun).world.trace).count AudioRelease.Mix_FreeMusic = 1
          ↔ escapeRun.Mix_LoadMUS_ok) :=
  ⟨by decide,
   (audio_released_once _ escapeRun (by decide)).1,
   (audio_released_once _ escapeRun (by decide)).2.1⟩

end OmGemoy
